import Mathlib

/-! Barometric sensing task (`main/sens.cpp`)

A shallow embedding of the variometer tone mapper `VarioSound` and of the
measurement cycle `ProcBaro` of `main/sens.cpp`, together with the properties
checked against it.

Machine integers are modelled by `Int`/`Nat` with explicit wrap-around at the
width the source declares (`int32_t`, `uint32_t`, `uint16_t`, `uint8_t`).
-/

namespace Sens

/-! ## Machine integers -/

/-- Conversion of an integer value to `int32_t` (two's complement wrap). -/
def wrapI32 (x : Int) : Int := (x + 2147483648) % 4294967296 - 2147483648

/-- Conversion of an integer value to `int16_t` (two's complement wrap). -/
def wrapI16 (x : Int) : Int := (x + 32768) % 65536 - 32768

/-- Conversion of an integer value to `int64_t` (two's complement wrap). -/
def wrapI64 (x : Int) : Int :=
  (x + 9223372036854775808) % 18446744073709551616 - 9223372036854775808

/-- Conversion of an integer value to `uint8_t`. -/
def toU8 (x : Int) : Nat := (x % 256).toNat

/-- Conversion of an integer value to `uint16_t`. -/
def toU16 (x : Int) : Nat := (x % 65536).toNat

/-- Conversion of an integer value to `uint32_t`. -/
def toU32 (x : Int) : Nat := (x % 4294967296).toNat

/-- The operator `>>` on a signed value: the arithmetic shift, which rounds
towards minus infinity. -/
def sar (x : Int) (n : Nat) : Int := Int.shiftRight x n

/-- The value is representable as an `int32_t`. -/
def fitsI32 (x : Int) : Prop := -2147483648 ≤ x ∧ x ≤ 2147483647

instance (x : Int) : Decidable (fitsI32 x) :=
  inferInstanceAs (Decidable (-2147483648 ≤ x ∧ x ≤ 2147483647))

/-! ## The variometer tone mapper -/

/-- The constant `VarioBasePeriod` of `sens.cpp`, in ms. -/
def VarioBasePeriod : Nat := 800

/-- The three globals written by `VarioSound`: `Vario_Note` (a byte packing the
volume in bits 7..6 and the note in bits 5..0), `Vario_Period` and
`Vario_Fill` (both `uint16_t`, ms). -/
structure VarioState where
  Vario_Note : Nat
  Vario_Period : Nat
  Vario_Fill : Nat
deriving DecidableEq

/-- The note field of the packed byte `Vario_Note`: its low 6 bits. -/
def noteField (n : Nat) : Nat := n &&& 0x3F

/-- The function `VarioSound(int32_t ClimbRate)` of `sens.cpp`. `KNOB_Tick` is
the `uint8_t` knob value of `hal.h`; the state is the three `Vario_*`
globals.  `Note` is a `uint8_t`, so the quotient is narrowed to 8 bits before
it is compared with the clamp. -/
def VarioSound (KNOB_Tick : Nat) (ClimbRate : Int) (st : VarioState) : VarioState :=
  let VarioVolume0 : Nat := (KNOB_Tick % 256) >>> 1
  let VarioVolume : Nat := if VarioVolume0 > 3 then 3 else VarioVolume0
  if ClimbRate ≥ 50 then
    let Note0 : Nat := toU8 (Int.tdiv (wrapI32 (ClimbRate - 50)) 50)
    let Note : Nat := if Note0 ≥ 0x0F then 0x0F else Note0
    let Period : Nat := toU16 (((VarioBasePeriod + (Note >>> 1)) / (1 + Note) : Nat) : Int)
    { Vario_Period := Period
      Vario_Fill := Period >>> 1
      Vario_Note := toU8 (((VarioVolume <<< 6) ||| (0x10 + Note) : Nat) : Int) }
  else if ClimbRate ≤ -100 then
    let Note0 : Nat := toU8 (Int.tdiv (wrapI32 (wrapI32 (-ClimbRate) - 100)) 100)
    let Note : Nat := if Note0 ≥ 0x0B then 0x0B else Note0
    { Vario_Period := VarioBasePeriod
      Vario_Fill := VarioBasePeriod
      Vario_Note := toU8 (((VarioVolume <<< 6) ||| (0x0B - Note) : Nat) : Int) }
  else
    { st with Vario_Note := 0x00 }

/-! ## Numeric primitives declared outside `sens.cpp`

`sens.cpp` uses `SlopePipe` (`slope.h`), `LowPass2` (`lowpass2.h`), `Delay`
(`fifo.h`), `Atmosphere` (`atmosphere.h`) and `IntSqrt` (`intmath.h`); only
their use is visible in `sens.cpp`.  The slope pipe is modelled after the
specification's data model; everything else is a parameter of the embedding. -/

/-- Modelled from the spec: the class `SlopePipe<int32_t>` of `slope.h`, which
is included by `sens.cpp` but defined outside it.  The window is the ordered sequence of the
four most recent samples (`d0` oldest, `d3` newest); `Aver`, `Slope` and
`Noise` are the public result members read by `ProcBaro`. -/
structure SlopePipe where
  d0 : Int
  d1 : Int
  d2 : Int
  d3 : Int
  Aver : Int
  Slope : Int
  Noise : Int
deriving DecidableEq

/-- Modelled from the spec: `SlopePipe::Clear(Zero)`, which fills the window
with the seed. -/
def SlopePipe.Clear (Zero : Int) : SlopePipe :=
  { d0 := Zero, d1 := Zero, d2 := Zero, d3 := Zero, Aver := 0, Slope := 0, Noise := 0 }

/-- Modelled from the spec: `SlopePipe::Input(sample)` pushes a new sample and
evicts the oldest one. -/
def SlopePipe.Input (p : SlopePipe) (Inp : Int) : SlopePipe :=
  { p with d0 := p.d1, d1 := p.d2, d2 := p.d3, d3 := Inp }

/-- The parts of the included headers that `sens.cpp` uses and that are taken as
parameters: the closed-form weighting of the slope fit, the two `LowPass2`
instantiations, the delay line, the atmosphere model and the integer square
root. -/
structure Prims where
  /-- Method `SlopePipe::FitSlope`: the average written to `Aver`, from the window. -/
  fitAver : Int → Int → Int → Int → Int
  /-- Method `SlopePipe::FitSlope`: the slope written to `Slope`, from the window. -/
  fitSlope : Int → Int → Int → Int → Int
  /-- Method `SlopePipe::CalcNoise`: the residual written to `Noise`, from the window
  and the fitted average and slope. -/
  calcNoise : Int → Int → Int → Int → Int → Int → Int
  /-- State of `LowPass2<int32_t,6,4,8>`. -/
  NoiseLP : Type
  /-- Method `LowPass2<int32_t,6,4,8>::Set`. -/
  noiseSet : Int → NoiseLP
  /-- Method `LowPass2<int32_t,6,4,8>::Process`: returned value and new state. -/
  noiseProcess : NoiseLP → Int → Int × NoiseLP
  /-- State of `LowPass2<int64_t,10,9,12>`. -/
  AverLP : Type
  /-- Method `LowPass2<int64_t,10,9,12>::Set`. -/
  averSet : Int → AverLP
  /-- Method `LowPass2<int64_t,10,9,12>::Process` (its returned value is not used). -/
  averProcess : AverLP → Int → AverLP
  /-- The public member `Out` of `LowPass2<int64_t,10,9,12>`. -/
  averOut : AverLP → Int
  /-- State of `Delay<int32_t,8>`. -/
  DelayLine : Type
  /-- Method `Delay<int32_t,8>::Clear`. -/
  delayClear : Int → DelayLine
  /-- Method `Delay<int32_t,8>::Input`: returned (delayed) value and new state. -/
  delayInput : DelayLine → Int → Int × DelayLine
  /-- Function `Atmosphere::PressureLapseRate(Pressure, Temperature)`. -/
  PressureLapseRate : Int → Int → Int
  /-- Function `Atmosphere::StdAltitude(Pressure)`. -/
  StdAltitude : Int → Int
  /-- Function `IntSqrt` of `intmath.h`. -/
  IntSqrt : Nat → Nat

/-- Modelled from the spec: `SlopePipe::FitSlope()` computes the average and
the slope from the four points of the window and writes them to `Aver` and
`Slope`; the window is left as it is. -/
def SlopePipe.FitSlope (P : Prims) (p : SlopePipe) : SlopePipe :=
  { p with Aver := P.fitAver p.d0 p.d1 p.d2 p.d3, Slope := P.fitSlope p.d0 p.d1 p.d2 p.d3 }

/-- Modelled from the spec: `SlopePipe::CalcNoise()` computes the residual of
the four points about the fit and writes it to `Noise`; the window is left as
it is. -/
def SlopePipe.CalcNoise (P : Prims) (p : SlopePipe) : SlopePipe :=
  { p with Noise := P.calcNoise p.d0 p.d1 p.d2 p.d3 p.Aver p.Slope }

/-! ## The measurement cycle -/

/-- Compile-time selection of `sens.cpp`: `WITH_BMP180` selects the two-phase
protocol, otherwise one of the combined-`Acquire()` sensors is selected;
`WITH_VARIO` (with `WITH_BEEPER`), `WITH_BME280` and `WITH_SDLOG` switch the
corresponding blocks; `KNOB_Tick` is the knob constant of `hal.h`. -/
structure Config where
  WITH_BMP180 : Bool
  WITH_VARIO : Bool
  WITH_BME280 : Bool
  WITH_SDLOG : Bool
  KNOB_Tick : Nat

/-- One pressure attempt of the BMP180 sub-sample loop: the code returned by
`Baro.AcquireRawPressure()`, the value of `Baro.Pressure` after
`CalcPressure()`, and the tick count read after the attempt. -/
structure PressRead where
  Err : Nat
  Pressure : Nat
  Tick : Nat

/-- The record of the position buffer as far as `ProcBaro` writes it. -/
structure GPS_Position where
  Pressure : Int
  StdAltitude : Int
  ClimbRate : Int
  Temperature : Int
  Humidity : Int
  hasHum : Bool
  hasBaro : Bool
deriving DecidableEq

/-- What the collaborators answer during one call of `ProcBaro`. -/
structure CycleIn where
  /-- Value of `TimeSync_Time()` at entry. -/
  Time0 : Nat
  /-- Value of `TimeSync_msTime()` at entry, the phase within the second. -/
  Phase : Nat
  /-- Value of `xTaskGetTickCount()` before the acquisition. -/
  Start : Nat
  /-- BMP180: code returned by `Baro.AcquireRawTemperature()`. -/
  TempErr : Nat
  /-- BMP180: the pressure attempt number `Idx`. -/
  Press : Nat → PressRead
  /-- Combined protocol: code returned by the first `Baro.Acquire()`. -/
  Err1 : Nat
  /-- Combined protocol: `Baro.Pressure` after the first `Calculate()`. -/
  Pressure1 : Nat
  /-- Combined protocol: `xTaskGetTickCount()` after the first `Acquire()`. -/
  End : Nat
  /-- Combined protocol: code returned by the second `Baro.Acquire()`. -/
  Err2 : Nat
  /-- Combined protocol: `Baro.Pressure` after the second `Calculate()`. -/
  Pressure2 : Nat
  /-- Codes returned by `CheckID`, `ReadCalib` and the acquisition inside `InitBaro`. -/
  CheckID : Nat
  ReadCalib : Nat
  InitAcquire : Nat
  /-- Value of `Baro.Temperature` read by the estimation stage. -/
  Temperature : Int
  /-- Values of `Baro.hasHumidity()` and `Baro.Humidity` (BME280). -/
  hasHumidity : Bool
  Humidity : Int
  GPS_TimeSinceLock : Nat
  GPS_Altitude : Int
  /-- Function `TimeSync_Time(Tick)`. -/
  TimeAt : Nat → Nat
  /-- Function `TimeSync_msTime(Tick)`. -/
  msTimeAt : Nat → Nat
  /-- Call `GPS_getPosition(BestIdx, BestRes, Sec, mSec, 0)`: the record found
  (its index in the buffer) and `BestRes`. -/
  getPosition : Int → Int → Option Nat × Int
  /-- Flag `Parameters.Verbose`. -/
  Verbose : Bool
  /-- Value of `Log_Free()` at the write of sentence number `i`. -/
  Log_Free : Nat → Nat
  BatteryVoltage : Nat

/-- The three sentences assembled in `Line`, as the values handed to the
formatting functions. -/
inductive Sentence where
  | POGNB (sec hundredths : Nat) (temperature : Int) (pressure noise : Nat)
      (stdAltitude altitude climbRate : Int) (humidity : Option Int)
  | PGRMZ (stdFeet : Int)
  | LK8EX1 (pressure : Nat) (stdAltitude climbRate temperature : Int) (battery : Nat)
deriving DecidableEq

/-- Calls that `ProcBaro` makes on its collaborators, in program order. -/
inductive Effect where
  | vTaskDelay (ticks : Nat)
  | I2C_Restart
  | InitBaro
  | VarioSound (ClimbRate : Int)
  | GPS_getPosition (Sec mSec : Int)
  | annotate (idx : Nat)
  | console (s : Sentence)
  | log (s : Sentence)
deriving DecidableEq

/-- Values computed by the estimation stage of one cycle. -/
structure Estimates where
  PLR : Int
  ClimbRate : Int
  Noise : Nat
  StdAltitude : Int
  ClimbRate4sec : Int
  Pressure : Int
  Altitude : Int
deriving DecidableEq

/-- The static and global state that `ProcBaro` reads and writes. -/
structure BaroState (P : Prims) where
  PipeCount : Nat
  AverPress : Nat
  AverCount : Nat
  BaroPipe : SlopePipe
  BaroNoise : P.NoiseLP
  PressAver : P.AverLP
  AltAver : P.AverLP
  PressDelay : P.DelayLine
  Vario : VarioState
  Position : List GPS_Position

/-- What one call of `ProcBaro` produced: the calls made, the estimates (when
the estimation stage ran), and the sentences assembled. -/
structure CycleOut where
  effects : List Effect
  est : Option Estimates
  sentences : List Sentence
deriving DecidableEq

/-- The function `InitBaro()` of `sens.cpp`, as far as it touches the state of
`ProcBaro`: with the BMP180, a successful identification, calibration readout
and temperature acquisition clears `AverPress` and `AverCount`. -/
def InitBaro {P : Prims} (cfg : Config) (inp : CycleIn) (s : BaroState P) : BaroState P :=
  let Err := inp.CheckID
  let Err := if Err = 0 then inp.ReadCalib else Err
  let Err := if Err = 0 then inp.InitAcquire else Err
  if cfg.WITH_BMP180 then
    if Err = 0 then { s with AverPress := 0, AverCount := 0 } else s
  else s

/-- Lines 122-126 of `sens.cpp`: the measurement time `Sec` in units of 0.1 s,
derived from the clock read at entry, and the argument of the `vTaskDelay`
that waits for the start of the measuring period. -/
def phaseWait (inp : CycleIn) : Int × Nat :=
  let Sec0 : Int := wrapI16 (10 * ((inp.Time0 % 4294967296 % 60 : Nat) : Int))
  let Phase : Nat := inp.Phase % 65536
  let Sec1 : Int := if Phase ≥ 500 then wrapI16 (Sec0 + 10) else wrapI16 (Sec0 + 5)
  let ticks : Nat := if Phase ≥ 500 then toU32 (1000 - (Phase : Int)) else toU32 (500 - (Phase : Int))
  let Sec : Int := if Sec1 ≥ 600 then wrapI16 (Sec1 - 600) else Sec1
  (Sec, ticks)

/-- The sub-sample loop of the BMP180 branch (at most 16 attempts, left as soon
as 200 ticks have passed): `n` attempts remain, `Idx` is the next one; the
result is `AverPress`, `AverCount` and `End`. -/
def sampleLoop (inp : CycleIn) : Nat → Nat → Nat → Nat → Nat → Nat × Nat × Nat
  | 0, _, AverPress, AverCount, End => (AverPress, AverCount, End)
  | n + 1, Idx, AverPress, AverCount, _ =>
    let r := inp.Press Idx
    let AverPress1 := if r.Err = 0 then toU32 ((AverPress : Int) + (r.Pressure : Int)) else AverPress
    let AverCount1 := if r.Err = 0 then toU8 ((AverCount : Int) + 1) else AverCount
    let End1 := r.Tick % 4294967296
    if toU32 ((End1 : Int) - (inp.Start % 4294967296 : Nat)) ≥ 200 then (AverPress1, AverCount1, End1)
    else sampleLoop inp n (Idx + 1) AverPress1 AverCount1 End1

/-- Outcome of the acquisition part of `ProcBaro`: either the cycle is
abandoned (`recover` tells whether the path restarts the bus and re-runs
`InitBaro`), or the averaged pressure and `MeasTick` are available.  In both
cases `AverPress` and `AverCount` carry the value the path wrote to the
variable of that name, `none` when it did not write it. -/
inductive Acq where
  | fail (recover : Bool) (AverPress AverCount : Option Nat)
  | ok (AverPress : Nat) (AverCount : Option Nat) (MeasTick : Nat)

/-- Midpoint of the acquisition window: `MeasTick = Start + (End-Start)/2` in
`TickType_t` arithmetic. -/
def measTick (Start End : Nat) : Nat :=
  toU32 ((Start % 4294967296 : Nat) + ((toU32 ((End % 4294967296 : Nat) - (Start % 4294967296 : Nat) : Int) / 2 : Nat) : Int))

/-- Lines 128-170 of `sens.cpp`: the acquisition, in the two-phase BMP180
protocol or in the combined `Acquire()` protocol. -/
def acquire (cfg : Config) (inp : CycleIn) : Acq :=
  if cfg.WITH_BMP180 then
    if inp.TempErr = 0 then
      let (AverPress, AverCount, End) := sampleLoop inp 16 0 0 0 (inp.Start % 4294967296)
      let MeasTick := measTick inp.Start End
      if AverCount = 0 then Acq.fail false (some AverPress) (some AverCount)
      else Acq.ok (toU32 (((AverPress <<< 2 : Nat) : Int) + ((AverCount >>> 1 : Nat) : Int)) / AverCount)
             (some AverCount) MeasTick
    else Acq.fail true none none
  else
    let MeasTick := measTick inp.Start inp.End
    if inp.Err1 = 0 then
      let AverPress := inp.Pressure1 % 4294967296
      if inp.Err2 = 0 then
        Acq.ok (toU32 ((AverPress : Int) + ((inp.Pressure2 % 4294967296 : Nat) : Int)) / 2) none MeasTick
      else Acq.fail false (some AverPress) none
    else Acq.fail false none none

/-- The acquisition of the cycle succeeded: `ProcBaro` reaches
`BaroPipe.Input`. -/
def succeeded (cfg : Config) (inp : CycleIn) : Bool :=
  match acquire cfg inp with
  | Acq.ok _ _ _ => true
  | Acq.fail _ _ _ => false

/-- Line 177 of `sens.cpp`: `ClimbRate = (BaroPipe.Slope*PLR)/800` in `int32_t`
arithmetic, with the truncating division of C. -/
def climbRate (Slope PLR : Int) : Int := Int.tdiv (wrapI32 (Slope * PLR)) 800

/-- Lines 196-198 of `sens.cpp`: the cross-calibrated altitude, from the `Out`
members of `AltAver` and `PressAver` (`int64_t`), the current pressure and the
lapse rate. -/
def crossAltitude (AltOut PressOut Pressure PLR : Int) : Int :=
  let PressDiff : Int := wrapI32 (Pressure - sar (wrapI64 (PressOut + 2048)) 12)
  let AltDiff : Int := Int.tdiv (wrapI32 (PressDiff * sar PLR 4)) 250
  wrapI32 (sar (wrapI64 (AltOut + 2048)) 12 + AltDiff)

/-- The condition of line 192: second half of the second and a GPS lock. -/
def qualifying (inp : CycleIn) : Bool :=
  decide (inp.Phase % 65536 ≥ 500) && decide (inp.GPS_TimeSinceLock ≠ 0)

/-- Applies `f` to the record number `i` of the position buffer. -/
def annotateAt (f : GPS_Position → GPS_Position) : Nat → List GPS_Position → List GPS_Position
  | _, [] => []
  | 0, r :: rs => f r :: rs
  | i + 1, r :: rs => r :: annotateAt f i rs

/-- Lines 224-233 of `sens.cpp`: the fields written into the record found. -/
def annotate (cfg : Config) (inp : CycleIn) (e : Estimates) (r : GPS_Position) : GPS_Position :=
  let r1 : GPS_Position :=
    { r with Pressure := e.Pressure, StdAltitude := e.StdAltitude,
             ClimbRate := Int.tdiv e.ClimbRate 10, Temperature := inp.Temperature }
  let r2 : GPS_Position :=
    if cfg.WITH_BME280 && inp.hasHumidity then { r1 with Humidity := inp.Humidity, hasHum := true }
    else r1
  { r2 with hasBaro := true }

/-- Lines 236-313 of `sens.cpp`: the values of the three sentences. -/
def buildSentences (cfg : Config) (inp : CycleIn) (MeasTick : Nat) (e : Estimates) : List Sentence :=
  let Time : Nat := inp.TimeAt MeasTick % 4294967296
  let msTime : Nat := inp.msTimeAt MeasTick % 65536
  let StdFeet : Int := sar (wrapI32 (e.StdAltitude * 3360 + 512)) 10
  [ Sentence.POGNB (Time % 60) (msTime / 10) inp.Temperature
      (toU32 (wrapI32 (10 * e.Pressure + 2)) >>> 2) e.Noise e.StdAltitude e.Altitude e.ClimbRate
      (if cfg.WITH_BME280 && inp.hasHumidity then some inp.Humidity else none),
    Sentence.PGRMZ (Int.tdiv StdFeet 10),
    Sentence.LK8EX1 (toU32 (wrapI32 (e.Pressure + 2)) >>> 2) (Int.tdiv (wrapI32 (e.StdAltitude + 5)) 10)
      e.ClimbRate (Int.tdiv (inp.Temperature + 5) 10) ((inp.BatteryVoltage + 128) >>> 8) ]

/-- The writes of the sentence number `i`: to the console when
`Parameters.Verbose` is set, to the log when `Log_Free()>=128`. -/
def emit (cfg : Config) (inp : CycleIn) (i : Nat) (x : Sentence) : List Effect :=
  (if inp.Verbose then [Effect.console x] else []) ++
  (if cfg.WITH_SDLOG && decide (inp.Log_Free i ≥ 128) then [Effect.log x] else [])

/-- The writes of all sentences, numbered from `i`. -/
def emitAll (cfg : Config) (inp : CycleIn) : Nat → List Sentence → List Effect
  | _, [] => []
  | i, x :: xs => emit cfg inp i x ++ emitAll cfg inp (i + 1) xs

/-- Lines 175-198 of `sens.cpp`: the estimates of a cycle, from the state after
`BaroPipe.Input`, together with the filter states they leave behind: the slope
pipe, the noise filter, the delay line, `PressAver` and `AltAver`. -/
def estimate (P : Prims) (inp : CycleIn) (s : BaroState P) :
    Estimates × SlopePipe × P.NoiseLP × P.DelayLine × P.AverLP × P.AverLP :=
  let pipe1 := s.BaroPipe.FitSlope P
  let PLR : Int := wrapI32 (P.PressureLapseRate ((toU32 ((s.AverPress : Int) + 2) >>> 2 : Nat) : Int) inp.Temperature)
  let ClimbRate : Int := climbRate pipe1.Slope PLR
  let pipe2 := pipe1.CalcNoise P
  let filtered := P.noiseProcess s.BaroNoise pipe2.Noise
  let Noise0 : Nat := toU32 filtered.1
  let Noise : Nat := toU32 (((P.IntSqrt (toU32 (25 * (Noise0 : Int))) + 64) >>> 7 : Nat) : Int)
  let Pressure0 : Int := pipe2.Aver
  let StdAltitude : Int := wrapI32 (P.StdAltitude (sar (wrapI32 (Pressure0 + 8)) 4))
  let delayed := P.delayInput s.PressDelay Pressure0
  let ClimbRate4sec : Int := Int.tdiv (wrapI32 (wrapI32 (Pressure0 - delayed.1) * PLR)) 3200
  let Pressure : Int := sar (wrapI32 (Pressure0 + 2)) 2
  let PressAver := if qualifying inp then P.averProcess s.PressAver Pressure else s.PressAver
  let AltAver := if qualifying inp then P.averProcess s.AltAver inp.GPS_Altitude else s.AltAver
  let Altitude : Int := crossAltitude (P.averOut AltAver) (P.averOut PressAver) Pressure PLR
  ({ PLR := PLR, ClimbRate := ClimbRate, Noise := Noise, StdAltitude := StdAltitude,
     ClimbRate4sec := ClimbRate4sec, Pressure := Pressure, Altitude := Altitude },
   pipe2, filtered.2, delayed.2, PressAver, AltAver)

/-- The key handed to `GPS_getPosition` (lines 203-207): `Sec/10` and
`100*Frac` with `Frac = Sec%10`. -/
def lookupKey (Sec : Int) : Int × Int :=
  let Frac : Nat := toU8 (Int.tmod Sec 10)
  (Int.tdiv Sec 10, wrapI16 (100 * (Frac : Int)))

/-- Lines 171-172 of `sens.cpp`: the averaged pressure goes into the slope
pipe and the count of `PipeCount` goes up, saturating at 255. -/
def pushSample {P : Prims} (s : BaroState P) (AverPress : Nat) (AverCount : Option Nat) : BaroState P :=
  { s with AverPress := AverPress, AverCount := AverCount.getD s.AverCount,
           BaroPipe := s.BaroPipe.Input (wrapI32 AverPress),
           PipeCount := if s.PipeCount < 255 then s.PipeCount + 1 else s.PipeCount }

/-- The record to annotate (lines 207 and 223): the record found by
`GPS_getPosition` for the key, when there is one and `abs(BestRes)<=250`. -/
def lookupHit (inp : CycleIn) (key : Int × Int) : Option Nat :=
  match (inp.getPosition key.1 key.2).1 with
  | some i => if |wrapI16 (inp.getPosition key.1 key.2).2| ≤ 250 then some i else none
  | none => none

/-- Lines 175-313 of `sens.cpp`: the estimation stage, from the state after
`BaroPipe.Input`: slope fit and estimates, tone, annotation of the position
record, and the three sentences. -/
def estimation (cfg : Config) (P : Prims) (inp : CycleIn) (Sec : Int) (ticks MeasTick : Nat)
    (s : BaroState P) : BaroState P × CycleOut :=
  let r := estimate P inp s
  let e := r.1
  let key := lookupKey Sec
  let hit := lookupHit inp key
  let lines := buildSentences cfg inp MeasTick e
  ({ s with BaroPipe := r.2.1, BaroNoise := r.2.2.1, PressDelay := r.2.2.2.1,
            PressAver := r.2.2.2.2.1, AltAver := r.2.2.2.2.2,
            Vario := if cfg.WITH_VARIO then VarioSound cfg.KNOB_Tick e.ClimbRate s.Vario else s.Vario,
            Position :=
              match hit with
              | some i => annotateAt (annotate cfg inp e) i s.Position
              | none => s.Position },
   { effects :=
       [Effect.vTaskDelay ticks] ++
       (if cfg.WITH_VARIO then [Effect.VarioSound e.ClimbRate] else []) ++
       [Effect.GPS_getPosition key.1 key.2] ++
       (match hit with
        | some i => [Effect.annotate i]
        | none => []) ++
       emitAll cfg inp 0 lines,
     est := some e, sentences := lines })

/-- What a cycle that returns before the estimation stage produced. -/
def silent (effects : List Effect) : CycleOut :=
  { effects := effects, est := none, sentences := [] }

/-- The function `ProcBaro()` of `sens.cpp`: one measurement cycle. -/
def ProcBaro (cfg : Config) (P : Prims) (inp : CycleIn) (s : BaroState P) : BaroState P × CycleOut :=
  let w := phaseWait inp
  match acquire cfg inp with
  | Acq.fail recover AverPress AverCount =>
    let s1 : BaroState P :=
      { s with PipeCount := 0, AverPress := AverPress.getD s.AverPress,
               AverCount := AverCount.getD s.AverCount }
    if recover then
      (InitBaro cfg inp s1,
       silent [Effect.vTaskDelay w.2, Effect.I2C_Restart, Effect.vTaskDelay 20, Effect.InitBaro])
    else
      (s1, silent [Effect.vTaskDelay w.2])
  | Acq.ok AverPress AverCount MeasTick =>
    let s1 := pushSample s AverPress AverCount
    if s1.PipeCount < 4 then (s1, silent [Effect.vTaskDelay w.2])
    else estimation cfg P inp w.1 w.2 MeasTick s1

/-- The loop of `vTaskSENS`: consecutive calls of `ProcBaro`, one per element
of the list; the result is the final state and what every call produced. -/
def runCycles (cfg : Config) (P : Prims) : List CycleIn → BaroState P → BaroState P × List CycleOut
  | [], s => (s, [])
  | inp :: rest, s =>
    let r := ProcBaro cfg P inp s
    let q := runCycles cfg P rest r.1
    (q.1, r.2 :: q.2)

/-- The filter seeding of `vTaskSENS` (lines 330-336), with the slope pipe
cleared, the count at zero and the given tone state and position buffer. -/
def initState (P : Prims) (Vario : VarioState) (Position : List GPS_Position) : BaroState P :=
  { PipeCount := 0, AverPress := 0, AverCount := 0,
    BaroPipe := SlopePipe.Clear (4 * 90000),
    BaroNoise := P.noiseSet (12 * 16),
    PressAver := P.averSet (4 * 101300),
    AltAver := P.averSet 0,
    PressDelay := P.delayClear (4 * 101300),
    Vario := Vario, Position := Position }

/-- The estimates produced by the last cycle of a run of the loop, if that
cycle reached the estimation stage. -/
def lastEst (cfg : Config) (P : Prims) (ins : List CycleIn) (s : BaroState P) : Option Estimates :=
  match (runCycles cfg P ins s).2.getLast? with
  | some o => o.est
  | none => none

/-- The calls that produce output: the tone, the annotation of a position
record and the writes of a sentence. -/
def Effect.isOutput : Effect → Bool
  | Effect.VarioSound _ => true
  | Effect.annotate _ => true
  | Effect.console _ => true
  | Effect.log _ => true
  | _ => false

/-- Number of consecutive successful cycles at the end of a run. -/
def streak (cfg : Config) (l : List CycleIn) : Nat :=
  l.foldl (fun n c => if succeeded cfg c = true then n + 1 else 0) 0

/-- The sample that a successful cycle pushes into the slope pipe. -/
def sample (cfg : Config) (inp : CycleIn) : Int :=
  match acquire cfg inp with
  | Acq.ok AverPress _ _ => wrapI32 AverPress
  | Acq.fail _ _ _ => 0

/-! ## A reference instantiation

The properties below hold for every instantiation of `Prims`.  For the
evaluation of the cycle on concrete inputs the parameters are instantiated as
follows. -/

/-- Integer square root of a 32-bit value, bit by bit from bit `b-1` down. -/
def isqrtBits : Nat → Nat → Nat → Nat
  | 0, r, _ => r
  | b + 1, r, n =>
    if (r + 2 ^ b) * (r + 2 ^ b) ≤ n then isqrtBits b (r + 2 ^ b) n else isqrtBits b r n

/-- Modelled from the spec: the primitives of `slope.h`, `lowpass2.h`,
`fifo.h`, `atmosphere.h` and `intmath.h`, which `sens.cpp` includes.  The fit
is the least-squares line through the four points (average in 1/16 units as
the sum of the samples, slope in 1/16 units per sample interval, noise as the
average squared residual); a low-pass filter is an exponential smoother that
holds its output scaled by the output shift (8 and 12 bits) and moves it
towards the input by the steady-state shift (4 and 9 bits), so that a constant
input equal to the seed is a fixed point; the delay line returns the value
stored 8 inputs ago; the lapse rate is that of the ideal gas, in units of
0.0001 m/Pa from Pa and 0.1 degC; the standard altitude is linearised at sea
level, in 0.1 m from Pa. -/
def refPrims : Prims where
  fitAver d0 d1 d2 d3 := wrapI32 (d0 + d1 + d2 + d3)
  fitSlope d0 d1 d2 d3 := Int.tdiv (2 * (3 * (d3 - d0) + (d2 - d1))) 5
  calcNoise d0 d1 d2 d3 Aver Slope :=
    ((8 * d0 - 2 * Aver + 3 * Slope) ^ 2 + (8 * d1 - 2 * Aver + Slope) ^ 2 +
     (8 * d2 - 2 * Aver - Slope) ^ 2 + (8 * d3 - 2 * Aver - 3 * Slope) ^ 2) / 16
  NoiseLP := Int
  noiseSet v := v * 256
  noiseProcess Out Inp := (Out + sar (Inp * 256 - Out) 4, Out + sar (Inp * 256 - Out) 4)
  AverLP := Int
  averSet v := v * 4096
  averProcess Out Inp := Out + sar (Inp * 4096 - Out) 9
  averOut Out := Out
  DelayLine := List Int
  delayClear v := List.replicate 8 v
  delayInput l x := (l.headD 0, l.tail ++ [x])
  PressureLapseRate p t := -(Int.tdiv (29271 * (2732 + t)) p)
  StdAltitude p := Int.tdiv ((101325 - p) * 832) 1000
  IntSqrt n := isqrtBits 16 0 n

/-- A build for one of the combined-`Acquire()` sensors, with the variometer. -/
def cfgCombined : Config :=
  { WITH_BMP180 := false, WITH_VARIO := true, WITH_BME280 := false, WITH_SDLOG := false, KNOB_Tick := 15 }

/-- A build for the BMP180, with the variometer. -/
def cfgBMP180 : Config :=
  { WITH_BMP180 := true, WITH_VARIO := true, WITH_BME280 := false, WITH_SDLOG := false, KNOB_Tick := 15 }

/-- A cycle in which every sensor call succeeds: it starts 600 ms into the
second, reads 101300 Pa (405200 in units of 0.25 Pa; the BMP180 reads Pa) at
15.0 degC, with a GPS lock at the altitude 1000.0 m and no matching position
record. -/
def cycleGood : CycleIn :=
  { Time0 := 1000, Phase := 600, Start := 5000, TempErr := 0,
    Press := fun _ => { Err := 0, Pressure := 101300, Tick := 5010 },
    Err1 := 0, Pressure1 := 405200, End := 5020, Err2 := 0, Pressure2 := 405200,
    CheckID := 0, ReadCalib := 0, InitAcquire := 0,
    Temperature := 150, hasHumidity := false, Humidity := 0,
    GPS_TimeSinceLock := 30, GPS_Altitude := 10000,
    TimeAt := fun _ => 1001, msTimeAt := fun _ => 10,
    getPosition := fun _ _ => (none, 0),
    Verbose := true, Log_Free := fun _ => 0, BatteryVoltage := 0 }

/-- The cycle `cycleGood` with a failure of the first `Baro.Acquire()`. -/
def cycleBadAcquire : CycleIn := { cycleGood with Err1 := 1 }

/-- The cycle `cycleGood` with a failure of every `Baro.AcquireRawPressure()`. -/
def cycleNoSample : CycleIn :=
  { cycleGood with Press := fun _ => { Err := 1, Pressure := 0, Tick := 5010 } }

/-- The cycle `cycleGood` with a failure of `Baro.AcquireRawTemperature()`. -/
def cycleBadTemperature : CycleIn := { cycleGood with TempErr := 1 }

/-- The state after the seeding of `vTaskSENS`, with a silent tone and one
position record. -/
def seeded : BaroState refPrims :=
  initState refPrims ⟨0, 0, 0⟩ [⟨0, 0, 0, 0, 0, false, false⟩]

/-- The state after four successful cycles from `seeded`. -/
def warmed : BaroState refPrims :=
  (runCycles cfgCombined refPrims [cycleGood, cycleGood, cycleGood, cycleGood] seeded).1


/-- The writes of a sentence, to the console or to the log. -/
def Effect.isEmission : Effect → Bool
  | Effect.console _ => true
  | Effect.log _ => true
  | _ => false

/-- The start of the measuring period in units of 0.1 s within the minute, as
lines 122-126 derive it from the clock read at entry: the second `Time0`
and the phase `Phase` in ms, moved to the next boundary of a half second. -/
def slotSec (Time0 Phase : Nat) : Nat :=
  (10 * (Time0 % 60) + (if 500 ≤ Phase then 10 else 5)) % 600

/-- The cycle `cycleGood` on a clock that counts ms: it is entered at
1000.600 s, starts the acquisition at 1001.000 s and ends it 40 ms later. -/
def cycleTimed : CycleIn :=
  { cycleGood with Time0 := 1000, Phase := 600, Start := 1001000, End := 1001040,
                   TimeAt := fun t => t / 1000, msTimeAt := fun t => t % 1000 }

/-- The cycle `cycleTimed` with a position record found 120 ms off. -/
def cycleFound : CycleIn := { cycleTimed with getPosition := fun _ _ => (some 0, -120) }

/-- The cycle `cycleTimed` with a position record found 251 ms off. -/
def cycleFar : CycleIn := { cycleTimed with getPosition := fun _ _ => (some 0, 251) }

/-- The cycle `cycleGood` with a GPS altitude of -409.6 m (the shore of the
Dead Sea). -/
def cycleDeadSea : CycleIn := { cycleGood with GPS_Altitude := -4096 }

/-- The cycle `cycleGood` with a GPS altitude of -0.8 m. -/
def cycleBelow : CycleIn := { cycleGood with GPS_Altitude := -8 }

/-- The cycle `cycleGood` with a pressure reading 100 Pa lower. -/
def cycleLower : CycleIn := { cycleGood with Pressure1 := 404800, Pressure2 := 404800 }

/-- The state after three successful cycles and a fourth one at the shore of
the Dead Sea, from `seeded`. -/
def lowState : BaroState refPrims :=
  (runCycles cfgCombined refPrims [cycleGood, cycleGood, cycleGood, cycleDeadSea] seeded).1

/-- The estimates of the cycle `cycleBelow` from `lowState`. -/
def estBelow : Estimates :=
  { PLR := -832, ClimbRate := 0, Noise := 8, StdAltitude := 20,
    ClimbRate4sec := -316056, Pressure := 405200, Altitude := -8 }

/-- The estimates of the cycle `cycleLower` from `warmed`. -/
def estLower : Estimates :=
  { PLR := -833, ClimbRate := 499, Noise := 69, StdAltitude := 41,
    ClimbRate4sec := -316331, Pressure := 405100, Altitude := 60 }

/-! ## Lemmas on the machine integers -/

theorem wrapI32_of_fits {x : Int} (h : fitsI32 x) : wrapI32 x = x := by
  unfold fitsI32 at h; unfold wrapI32; omega

theorem wrapI64_of_fits {x : Int} (h1 : -9223372036854775808 ≤ x) (h2 : x ≤ 9223372036854775807) :
    wrapI64 x = x := by
  unfold wrapI64; omega

theorem sar_12_scaled (x : Int) : sar (x * 4096 + 2048) 12 = x := by
  have h := Int.shiftRight_eq_div_pow (x * 4096 + 2048) 12
  have h2 : ((2 ^ 12 : Nat) : Int) = 4096 := by norm_num
  rw [h2] at h
  have h3 : (x * 4096 + 2048) / 4096 = x := by omega
  unfold sar
  exact h.trans h3

theorem tdiv_of_nonneg (a : Int) (h : 0 ≤ a) : Int.tdiv a 800 = a / 800 :=
  Int.tdiv_eq_ediv h (by decide)

theorem tdiv_of_nonpos (a : Int) (h : a ≤ 0) : Int.tdiv a 800 = -((-a) / 800) := by
  have h1 : Int.tdiv (-(-a)) 800 = -(Int.tdiv (-a) 800) := Int.neg_tdiv (-a) 800
  rw [neg_neg] at h1
  rw [h1, Int.tdiv_eq_ediv (by omega) (by decide)]

/-! ## The tone mapper -/

theorem packNote_aux : ∀ vol < 4, ∀ note < 32,
    noteField (toU8 (((vol <<< 6) ||| note : Nat) : Int)) = note := by
  decide

/-- The note field of a packed byte is the note, whatever the volume. -/
theorem noteField_pack (vol note : Nat) (hv : vol ≤ 3) (hn : note ≤ 31) :
    noteField (toU8 (((vol <<< 6) ||| note : Nat) : Int)) = note :=
  packNote_aux vol (by omega) note (by omega)

theorem volume_le (k : Nat) : (if (k % 256) >>> 1 > 3 then 3 else (k % 256) >>> 1) ≤ 3 := by
  split <;> omega

/-- Below 128.5 m/s the climb note is `0x10 + min(15, (r-50) div 50)`: the
quotient still fits the 8-bit `Note`. -/
theorem VarioSound_climb_note_of_lt (KNOB_Tick : Nat) (st : VarioState) (r : Int)
    (h1 : 50 ≤ r) (h2 : r < 12850) :
    ((noteField (VarioSound KNOB_Tick r st).Vario_Note : Nat) : Int) = 0x10 + min 15 ((r - 50) / 50) := by
  have hw : wrapI32 (r - 50) = r - 50 := by unfold wrapI32; omega
  have hq : Int.tdiv (r - 50) 50 = (r - 50) / 50 := Int.tdiv_eq_ediv (by omega) (by decide)
  have hq0 : 0 ≤ (r - 50) / 50 := by omega
  have hq1 : (r - 50) / 50 < 256 := by omega
  have hu : ((toU8 ((r - 50) / 50) : Nat) : Int) = (r - 50) / 50 := by
    unfold toU8
    rw [Int.emod_eq_of_lt hq0 hq1, Int.toNat_of_nonneg hq0]
  unfold VarioSound
  simp only [ge_iff_le, h1, if_true, hw, hq]
  generalize toU8 ((r - 50) / 50) = n at hu
  rw [noteField_pack _ _ (volume_le KNOB_Tick) (by split <;> omega)]
  split <;> omega

/-- Claim C1, evaluated at the climb rate 12850 (128.5 m/s): the quotient
`(12850-50)/50 = 256` is narrowed to the 8-bit `Note` before the clamp, so the
note field is `0x10` (note 0), while the clamped formula
`0x10 + min(15, (r-50) div 50)` gives the top note `0x1F`; one step below, at
12849, the note field is still `0x1F`. -/
theorem VarioSound_climb_note_wraps :
    noteField (VarioSound 15 12850 ⟨0, 0, 0⟩).Vario_Note = 0x10 ∧
    (0x10 + min 15 ((12850 - 50) / 50) : Int) = 0x1F ∧
    noteField (VarioSound 15 12849 ⟨0, 0, 0⟩).Vario_Note = 0x1F := by
  decide

/-- Claim C9: a climb rate of exactly 50 gives the note field `0x10`, a climb
rate of exactly -100 gives the note field `0x0B`, and every climb rate
strictly between -100 and 50 sets the whole byte `Vario_Note` to `0x00`,
for every knob value. -/
theorem VarioSound_thresholds (KNOB_Tick : Nat) (st : VarioState) :
    noteField (VarioSound KNOB_Tick 50 st).Vario_Note = 0x10 ∧
    noteField (VarioSound KNOB_Tick (-100) st).Vario_Note = 0x0B ∧
    ∀ r : Int, -100 < r → r < 50 → (VarioSound KNOB_Tick r st).Vario_Note = 0x00 := by
  refine ⟨?_, ?_, ?_⟩
  · have h := noteField_pack _ 0x10 (volume_le KNOB_Tick) (by decide)
    simpa [VarioSound, toU8, wrapI32] using h
  · have h := noteField_pack _ 0x0B (volume_le KNOB_Tick) (by decide)
    simpa [VarioSound, toU8, wrapI32] using h
  · intro r h1 h2
    unfold VarioSound
    have a : ¬ (r ≥ 50) := by omega
    have b : ¬ (r ≤ -100) := by omega
    simp [a, b]

/-- Claim C9 at the knob value 15 and the climb rate 0. -/
theorem VarioSound_thresholds_witness :
    (-100 : Int) < 0 ∧ (0 : Int) < 50 ∧ (VarioSound 15 0 ⟨0x5F, 50, 25⟩).Vario_Note = 0x00 :=
  ⟨by decide, by decide, (VarioSound_thresholds 15 ⟨0x5F, 50, 25⟩).2.2 0 (by decide) (by decide)⟩

/-- Down to -257 m/s the sink note is `0x0B - min(11, (-r-100) div 100)`: the
quotient still fits the 8-bit `Note`. -/
theorem VarioSound_sink_note_of_gt (KNOB_Tick : Nat) (st : VarioState) (r : Int)
    (h1 : r ≤ -100) (h2 : -25700 < r) :
    ((noteField (VarioSound KNOB_Tick r st).Vario_Note : Nat) : Int) = 0x0B - min 11 ((-r - 100) / 100) := by
  have hw : wrapI32 (-r) = -r := by unfold wrapI32; omega
  have hw2 : wrapI32 (-r - 100) = -r - 100 := by unfold wrapI32; omega
  have hq : Int.tdiv (-r - 100) 100 = (-r - 100) / 100 := Int.tdiv_eq_ediv (by omega) (by decide)
  have hq0 : 0 ≤ (-r - 100) / 100 := by omega
  have hq1 : (-r - 100) / 100 < 256 := by omega
  have hu : ((toU8 ((-r - 100) / 100) : Nat) : Int) = (-r - 100) / 100 := by
    unfold toU8
    rw [Int.emod_eq_of_lt hq0 hq1, Int.toNat_of_nonneg hq0]
  have hc : ¬ (r ≥ 50) := by omega
  unfold VarioSound
  simp only [hc, h1, if_true, if_false, hw, hw2, hq]
  generalize toU8 ((-r - 100) / 100) = n at hu
  rw [noteField_pack _ _ (volume_le KNOB_Tick) (by split <;> omega)]
  split <;> omega

/-- Claim C8, evaluated at the climb rates -25600 and -25700: at -256 m/s the
8-bit `Note` is 255 and is clamped to 11, note field `0x00`; at -257 m/s the
quotient 256 is narrowed to 0 before the clamp, so the note field is `0x0B`,
higher than for the weaker sink, while the clamped formula
`0x0B - min(11, (-r-100) div 100)` gives `0x00`. -/
theorem VarioSound_sink_note_wraps :
    noteField (VarioSound 15 (-25600) ⟨0, 0, 0⟩).Vario_Note = 0x00 ∧
    noteField (VarioSound 15 (-25700) ⟨0, 0, 0⟩).Vario_Note = 0x0B ∧
    (0x0B - min 11 ((-(-25700) - 100) / 100) : Int) = 0x00 := by
  decide

/-! ## Climb rate and cross-calibrated altitude -/

/-- Claim C2: the climb rate of a cycle is `climbRate Slope PLR` for the fitted
slope and the lapse rate; when the product fits an `int32_t` this is
`(Slope*PLR)/800` with truncating division, it is non-negative for a negative
slope and a negative lapse rate, positive as soon as the product reaches 800,
and never positive for a positive slope and a negative lapse rate. -/
theorem climbRate_sign (Slope PLR : Int) (hfit : fitsI32 (Slope * PLR)) :
    (∀ (P : Prims) (inp : CycleIn) (s : BaroState P),
      (estimate P inp s).1.ClimbRate =
        climbRate (s.BaroPipe.FitSlope P).Slope (estimate P inp s).1.PLR) ∧
    climbRate Slope PLR = Int.tdiv (Slope * PLR) 800 ∧
    (Slope < 0 → PLR < 0 → 0 ≤ climbRate Slope PLR ∧ (800 ≤ Slope * PLR → 0 < climbRate Slope PLR)) ∧
    (0 < Slope → PLR < 0 → climbRate Slope PLR ≤ 0) := by
  have hw : climbRate Slope PLR = Int.tdiv (Slope * PLR) 800 := by
    unfold climbRate; rw [wrapI32_of_fits hfit]
  refine ⟨fun _ _ _ => rfl, hw, ?_, ?_⟩
  · intro hs hp
    have hpos : 0 < Slope * PLR := mul_pos_of_neg_of_neg hs hp
    rw [hw, tdiv_of_nonneg _ hpos.le]
    refine ⟨by omega, fun h => by omega⟩
  · intro hs hp
    have hneg : Slope * PLR < 0 := mul_neg_of_pos_of_neg hs hp
    rw [hw, tdiv_of_nonpos _ hneg.le]
    omega

/-- Claim C2 at the slope -64 and the lapse rate -832: the climb rate is
positive. -/
theorem climbRate_sign_witness :
    fitsI32 ((-64 : Int) * (-832)) ∧ (-64 : Int) < 0 ∧ (-832 : Int) < 0 ∧
    (800 : Int) ≤ (-64) * (-832) ∧ 0 < climbRate (-64) (-832) :=
  ⟨by decide, by decide, by decide, by decide,
   ((climbRate_sign (-64) (-832) (by decide)).2.2.1 (by decide) (by decide)).2 (by decide)⟩

/-- The formula of lines 196-198 at accumulators that hold `A<<12` and `P<<12`
and at the current pressure `P`. -/
theorem crossAltitude_fixed (A Pr PLR : Int) (hA : fitsI32 A) (hP : fitsI32 Pr) :
    crossAltitude (A * 4096) (Pr * 4096) Pr PLR = A := by
  have hA2 := hA
  unfold fitsI32 at hA hP
  have e1 : sar (wrapI64 (Pr * 4096 + 2048)) 12 = Pr := by
    rw [wrapI64_of_fits (by omega) (by omega), sar_12_scaled]
  have e2 : sar (wrapI64 (A * 4096 + 2048)) 12 = A := by
    rw [wrapI64_of_fits (by omega) (by omega), sar_12_scaled]
  unfold crossAltitude
  simp only [e1, e2, sub_self]
  have z : wrapI32 0 = 0 := by decide
  simp [z, wrapI32_of_fits hA2]

/-! ## The measurement cycle: one call -/

theorem ProcBaro_of_ok (cfg : Config) (P : Prims) (inp : CycleIn) (s : BaroState P)
    (a : Nat) (b : Option Nat) (c : Nat) (hacq : acquire cfg inp = Acq.ok a b c) :
    ProcBaro cfg P inp s =
      if (pushSample s a b).PipeCount < 4 then
        (pushSample s a b, silent [Effect.vTaskDelay (phaseWait inp).2])
      else estimation cfg P inp (phaseWait inp).1 (phaseWait inp).2 c (pushSample s a b) := by
  unfold ProcBaro
  rw [hacq]

theorem ProcBaro_of_fail (cfg : Config) (P : Prims) (inp : CycleIn) (s : BaroState P)
    (r : Bool) (a b : Option Nat) (hacq : acquire cfg inp = Acq.fail r a b) :
    ProcBaro cfg P inp s =
      if r = true then
        (InitBaro cfg inp
           { s with PipeCount := 0, AverPress := a.getD s.AverPress, AverCount := b.getD s.AverCount },
         silent [Effect.vTaskDelay (phaseWait inp).2, Effect.I2C_Restart, Effect.vTaskDelay 20,
                 Effect.InitBaro])
      else
        ({ s with PipeCount := 0, AverPress := a.getD s.AverPress, AverCount := b.getD s.AverCount },
         silent [Effect.vTaskDelay (phaseWait inp).2]) := by
  unfold ProcBaro
  rw [hacq]

theorem succeeded_of_ok (cfg : Config) (inp : CycleIn) (a : Nat) (b : Option Nat) (c : Nat)
    (hacq : acquire cfg inp = Acq.ok a b c) : succeeded cfg inp = true := by
  unfold succeeded; rw [hacq]

theorem succeeded_of_fail (cfg : Config) (inp : CycleIn) (r : Bool) (a b : Option Nat)
    (hacq : acquire cfg inp = Acq.fail r a b) : succeeded cfg inp = false := by
  unfold succeeded; rw [hacq]

/-- The acquisition succeeds exactly when, with the BMP180, the temperature
acquisition returned 0 and the sub-sample loop counted at least one pressure
reading, and with the other sensors, both calls of `Acquire()` returned 0. -/
theorem succeeded_iff (cfg : Config) (inp : CycleIn) :
    succeeded cfg inp = true ↔
      if cfg.WITH_BMP180 = true then
        inp.TempErr = 0 ∧ (sampleLoop inp 16 0 0 0 (inp.Start % 4294967296)).2.1 ≠ 0
      else inp.Err1 = 0 ∧ inp.Err2 = 0 := by
  unfold succeeded acquire
  split_ifs <;> simp_all
  split_ifs <;> simp_all

theorem InitBaro_frame {P : Prims} (cfg : Config) (inp : CycleIn) (s : BaroState P) :
    (InitBaro cfg inp s).PipeCount = s.PipeCount ∧ (InitBaro cfg inp s).BaroPipe = s.BaroPipe ∧
    (InitBaro cfg inp s).BaroNoise = s.BaroNoise ∧ (InitBaro cfg inp s).PressDelay = s.PressDelay ∧
    (InitBaro cfg inp s).PressAver = s.PressAver ∧ (InitBaro cfg inp s).AltAver = s.AltAver ∧
    (InitBaro cfg inp s).Vario = s.Vario ∧ (InitBaro cfg inp s).Position = s.Position := by
  unfold InitBaro
  dsimp only
  split_ifs <;> exact ⟨rfl, rfl, rfl, rfl, rfl, rfl, rfl, rfl⟩

/-- A failed cycle returns before the estimation stage and leaves the filters
as they were. -/
theorem ProcBaro_failed (cfg : Config) (P : Prims) (inp : CycleIn) (s : BaroState P)
    (h : succeeded cfg inp = false) :
    (ProcBaro cfg P inp s).2.est = none ∧
    (ProcBaro cfg P inp s).1.BaroPipe = s.BaroPipe ∧
    (ProcBaro cfg P inp s).1.PressAver = s.PressAver ∧
    (ProcBaro cfg P inp s).1.AltAver = s.AltAver ∧
    (ProcBaro cfg P inp s).1.PipeCount = 0 := by
  cases hacq : acquire cfg inp with
  | ok a b c => rw [succeeded_of_ok cfg inp a b c hacq] at h; simp at h
  | fail recover a b =>
    rw [ProcBaro_of_fail cfg P inp s recover a b hacq]
    cases recover
    · simp [silent]
    · have hf := InitBaro_frame cfg inp
        ({ s with PipeCount := 0, AverPress := a.getD s.AverPress, AverCount := b.getD s.AverCount } : BaroState P)
      simp [silent, hf]

/-- Claim C6: a cycle in which the acquisition fails produces no estimates and
no sentence, makes no call that produces output (tone, annotation, write of a
sentence), and leaves the tone, the position buffer, the slope pipe, the
noise filter, the delay line and both accumulators as they were; the count
`PipeCount` is 0 afterwards. -/
theorem failed_cycle_frame (cfg : Config) (P : Prims) (inp : CycleIn) (s : BaroState P)
    (h : succeeded cfg inp = false) :
    (ProcBaro cfg P inp s).2.est = none ∧
    (ProcBaro cfg P inp s).2.sentences = [] ∧
    (∀ x ∈ (ProcBaro cfg P inp s).2.effects, x.isOutput = false) ∧
    (ProcBaro cfg P inp s).1.Vario = s.Vario ∧
    (ProcBaro cfg P inp s).1.Position = s.Position ∧
    (ProcBaro cfg P inp s).1.BaroPipe = s.BaroPipe ∧
    (ProcBaro cfg P inp s).1.BaroNoise = s.BaroNoise ∧
    (ProcBaro cfg P inp s).1.PressDelay = s.PressDelay ∧
    (ProcBaro cfg P inp s).1.PressAver = s.PressAver ∧
    (ProcBaro cfg P inp s).1.AltAver = s.AltAver ∧
    (ProcBaro cfg P inp s).1.PipeCount = 0 := by
  cases hacq : acquire cfg inp with
  | ok a b c => rw [succeeded_of_ok cfg inp a b c hacq] at h; simp at h
  | fail recover a b =>
    rw [ProcBaro_of_fail cfg P inp s recover a b hacq]
    cases recover
    · simp [silent, Effect.isOutput]
    · have hf := InitBaro_frame cfg inp
        ({ s with PipeCount := 0, AverPress := a.getD s.AverPress, AverCount := b.getD s.AverCount } : BaroState P)
      simp [silent, Effect.isOutput, hf]

/-- Claim C6 at the BMP180 cycle in which no pressure sub-sample succeeds. -/
theorem failed_cycle_frame_witness :
    succeeded cfgBMP180 cycleNoSample = false ∧
    (ProcBaro cfgBMP180 refPrims cycleNoSample warmed).2.est = none ∧
    (ProcBaro cfgBMP180 refPrims cycleNoSample warmed).1.BaroPipe = warmed.BaroPipe ∧
    (ProcBaro cfgBMP180 refPrims cycleNoSample warmed).1.PipeCount = 0 :=
  have h := failed_cycle_frame cfgBMP180 refPrims cycleNoSample warmed (by decide)
  ⟨by decide, h.1, h.2.2.2.2.2.1, h.2.2.2.2.2.2.2.2.2.2⟩

/-- The failing path that restarts the bus is the one of the BMP180 temperature
acquisition. -/
theorem acquire_recover (cfg : Config) (inp : CycleIn) (r : Bool) (a b : Option Nat)
    (hacq : acquire cfg inp = Acq.fail r a b) :
    r = true ↔ (cfg.WITH_BMP180 = true ∧ inp.TempErr ≠ 0) := by
  unfold acquire at hacq
  dsimp only at hacq
  split_ifs at hacq <;> cases hacq <;> simp_all

/-- A failed cycle restarts the bus and re-runs `InitBaro` exactly when the
build is for the BMP180 and the temperature acquisition is what failed. -/
theorem recovery_iff (cfg : Config) (P : Prims) (inp : CycleIn) (s : BaroState P)
    (h : succeeded cfg inp = false) :
    (Effect.I2C_Restart ∈ (ProcBaro cfg P inp s).2.effects ∧
      Effect.InitBaro ∈ (ProcBaro cfg P inp s).2.effects) ↔
      (cfg.WITH_BMP180 = true ∧ inp.TempErr ≠ 0) := by
  cases hacq : acquire cfg inp with
  | ok a b c => rw [succeeded_of_ok cfg inp a b c hacq] at h; simp at h
  | fail recover a b =>
    rw [ProcBaro_of_fail cfg P inp s recover a b hacq, ← acquire_recover cfg inp recover a b hacq]
    cases recover <;> simp [silent]

/-- Claim C4, evaluated on three failing cycles from a warmed-up state.  With a
combined-`Acquire()` sensor and a failing first `Acquire()`, and with the
BMP180 when no pressure sub-sample succeeds, the cycle only waits for its slot
and clears the count: no `I2C_Restart`, no settle delay, no `InitBaro`.  With
the BMP180 and a failing temperature acquisition the cycle does all of them. -/
theorem failed_acquire_no_recovery :
    succeeded cfgCombined cycleBadAcquire = false ∧
    (ProcBaro cfgCombined refPrims cycleBadAcquire warmed).2.effects = [Effect.vTaskDelay 400] ∧
    (ProcBaro cfgCombined refPrims cycleBadAcquire warmed).1.PipeCount = 0 ∧
    succeeded cfgBMP180 cycleNoSample = false ∧
    (ProcBaro cfgBMP180 refPrims cycleNoSample warmed).2.effects = [Effect.vTaskDelay 400] ∧
    (ProcBaro cfgBMP180 refPrims cycleNoSample warmed).1.PipeCount = 0 ∧
    succeeded cfgBMP180 cycleBadTemperature = false ∧
    (ProcBaro cfgBMP180 refPrims cycleBadTemperature warmed).2.effects =
      [Effect.vTaskDelay 400, Effect.I2C_Restart, Effect.vTaskDelay 20, Effect.InitBaro] := by
  decide

/-- The count after a cycle. -/
theorem ProcBaro_PipeCount (cfg : Config) (P : Prims) (inp : CycleIn) (s : BaroState P) :
    (ProcBaro cfg P inp s).1.PipeCount =
      if succeeded cfg inp = true then (if s.PipeCount < 255 then s.PipeCount + 1 else s.PipeCount)
      else 0 := by
  cases hacq : acquire cfg inp with
  | fail r a b =>
    have h := succeeded_of_fail cfg inp r a b hacq
    simpa [h] using (ProcBaro_failed cfg P inp s h).2.2.2.2
  | ok a b c =>
    rw [ProcBaro_of_ok cfg P inp s a b c hacq, succeeded_of_ok cfg inp a b c hacq]
    simp only [if_true]
    split_ifs <;> simp [pushSample, estimation, *]

/-- The estimation stage runs exactly when the acquisition succeeded and the
count was at least 3 before the cycle. -/
theorem ProcBaro_est (cfg : Config) (P : Prims) (inp : CycleIn) (s : BaroState P) :
    (ProcBaro cfg P inp s).2.est.isSome = true ↔
      succeeded cfg inp = true ∧ 3 ≤ s.PipeCount := by
  cases hacq : acquire cfg inp with
  | fail r a b =>
    have h := succeeded_of_fail cfg inp r a b hacq
    simp [(ProcBaro_failed cfg P inp s h).1, h]
  | ok a b c =>
    rw [ProcBaro_of_ok cfg P inp s a b c hacq, succeeded_of_ok cfg inp a b c hacq]
    simp only [true_and, pushSample]
    split_ifs <;> simp [silent, estimation] <;> omega

/-- A successful cycle shifts the window of the slope pipe by its sample. -/
theorem ProcBaro_window (cfg : Config) (P : Prims) (inp : CycleIn) (s : BaroState P)
    (h : succeeded cfg inp = true) :
    (ProcBaro cfg P inp s).1.BaroPipe.d0 = s.BaroPipe.d1 ∧
    (ProcBaro cfg P inp s).1.BaroPipe.d1 = s.BaroPipe.d2 ∧
    (ProcBaro cfg P inp s).1.BaroPipe.d2 = s.BaroPipe.d3 ∧
    (ProcBaro cfg P inp s).1.BaroPipe.d3 = sample cfg inp := by
  cases hacq : acquire cfg inp with
  | fail r a b => rw [succeeded_of_fail cfg inp r a b hacq] at h; simp at h
  | ok a b c =>
    rw [ProcBaro_of_ok cfg P inp s a b c hacq]
    unfold sample
    rw [hacq]
    split_ifs <;> exact ⟨rfl, rfl, rfl, rfl⟩

/-- The pressure, the standard altitude and the climb rate of a cycle depend on
the state only through the three newest samples of the window. -/
theorem ProcBaro_est_congr (cfg : Config) (P : Prims) (inp : CycleIn) (s t : BaroState P)
    (h1 : s.BaroPipe.d1 = t.BaroPipe.d1) (h2 : s.BaroPipe.d2 = t.BaroPipe.d2)
    (h3 : s.BaroPipe.d3 = t.BaroPipe.d3) (e e2 : Estimates)
    (hs : (ProcBaro cfg P inp s).2.est = some e) (ht : (ProcBaro cfg P inp t).2.est = some e2) :
    e.Pressure = e2.Pressure ∧ e.StdAltitude = e2.StdAltitude ∧ e.ClimbRate = e2.ClimbRate := by
  cases hacq : acquire cfg inp with
  | fail r a b =>
    have h := succeeded_of_fail cfg inp r a b hacq
    rw [(ProcBaro_failed cfg P inp s h).1] at hs
    simp at hs
  | ok a b c =>
    rw [ProcBaro_of_ok cfg P inp s a b c hacq] at hs
    rw [ProcBaro_of_ok cfg P inp t a b c hacq] at ht
    split_ifs at hs with hs4
    · simp [silent] at hs
    split_ifs at ht with ht4
    · simp [silent] at ht
    simp only [estimation, Option.some.injEq] at hs ht
    subst hs; subst ht
    simp [estimate, pushSample, SlopePipe.FitSlope, SlopePipe.CalcNoise, SlopePipe.Input, h1, h2, h3]

/-- The two accumulators in one cycle: untouched when the estimation stage does
not run; when it runs, each is fed once if `Phase>=500` and
`GPS_TimeSinceLock` is not zero, and both are untouched otherwise. -/
theorem accumulators_step (cfg : Config) (P : Prims) (inp : CycleIn) (s : BaroState P) :
    ((ProcBaro cfg P inp s).2.est = none →
      (ProcBaro cfg P inp s).1.PressAver = s.PressAver ∧ (ProcBaro cfg P inp s).1.AltAver = s.AltAver) ∧
    (∀ e, (ProcBaro cfg P inp s).2.est = some e →
      ((500 ≤ inp.Phase % 65536 ∧ inp.GPS_TimeSinceLock ≠ 0) →
        (ProcBaro cfg P inp s).1.PressAver = P.averProcess s.PressAver e.Pressure ∧
        (ProcBaro cfg P inp s).1.AltAver = P.averProcess s.AltAver inp.GPS_Altitude) ∧
      (¬ (500 ≤ inp.Phase % 65536 ∧ inp.GPS_TimeSinceLock ≠ 0) →
        (ProcBaro cfg P inp s).1.PressAver = s.PressAver ∧
        (ProcBaro cfg P inp s).1.AltAver = s.AltAver)) := by
  cases hacq : acquire cfg inp with
  | fail r a b =>
    have h := succeeded_of_fail cfg inp r a b hacq
    have hf := ProcBaro_failed cfg P inp s h
    refine ⟨fun _ => ⟨hf.2.2.1, hf.2.2.2.1⟩, ?_⟩
    intro e he
    rw [hf.1] at he
    simp at he
  | ok a b c =>
    rw [ProcBaro_of_ok cfg P inp s a b c hacq]
    split_ifs
    · simp [silent, pushSample]
    · refine ⟨fun h => by simp [estimation] at h, ?_⟩
      intro e he
      simp only [estimation, Option.some.injEq] at he
      subst he
      constructor
      · intro hq
        have hq2 : qualifying inp = true := by simp [qualifying, hq.1, hq.2]
        simp [estimation, estimate, pushSample, hq2]
      · intro hq
        have hq2 : qualifying inp = false := by
          simp only [qualifying, Bool.and_eq_false_imp, decide_eq_true_eq, decide_eq_false_iff_not]
          intro h5 h6
          exact hq ⟨h5, h6⟩
        simp [estimation, estimate, pushSample, hq2]

/-! ## The measurement cycle: runs of the loop -/

theorem runCycles_append (cfg : Config) (P : Prims) (pre : List CycleIn) (c : CycleIn) (s : BaroState P) :
    runCycles cfg P (pre ++ [c]) s =
      ((ProcBaro cfg P c (runCycles cfg P pre s).1).1,
       (runCycles cfg P pre s).2 ++ [(ProcBaro cfg P c (runCycles cfg P pre s).1).2]) := by
  induction pre generalizing s with
  | nil => simp [runCycles]
  | cons a l ih => simp [runCycles, ih]

theorem lastEst_append (cfg : Config) (P : Prims) (pre : List CycleIn) (c : CycleIn) (s : BaroState P) :
    lastEst cfg P (pre ++ [c]) s = (ProcBaro cfg P c (runCycles cfg P pre s).1).2.est := by
  unfold lastEst
  rw [runCycles_append]
  simp

theorem streak_append (cfg : Config) (l : List CycleIn) (a : CycleIn) :
    streak cfg (l ++ [a]) = if succeeded cfg a = true then streak cfg l + 1 else 0 := by
  unfold streak
  rw [List.foldl_append]
  rfl

/-- From a count of 0, the count is the number of consecutive successes at
the end of the run, capped at 255. -/
theorem PipeCount_run (cfg : Config) (P : Prims) (s0 : BaroState P) (h0 : s0.PipeCount = 0)
    (pre : List CycleIn) :
    (runCycles cfg P pre s0).1.PipeCount = min 255 (streak cfg pre) := by
  induction pre using List.reverseRecOn with
  | nil => simp [runCycles, streak, h0]
  | append_singleton l a ih =>
    rw [runCycles_append, streak_append]
    simp only
    rw [ProcBaro_PipeCount, ih]
    split_ifs <;> omega

theorem streak_succ_le (cfg : Config) (k : Nat) (pre : List CycleIn) :
    k + 1 ≤ streak cfg pre ↔
      ∃ l a, pre = l ++ [a] ∧ succeeded cfg a = true ∧ k ≤ streak cfg l := by
  induction pre using List.reverseRecOn with
  | nil => simp [streak]
  | append_singleton l a _ =>
    rw [streak_append]
    constructor
    · intro h
      by_cases hs : succeeded cfg a = true
      · rw [if_pos hs] at h
        exact ⟨l, a, rfl, hs, by omega⟩
      · rw [if_neg hs] at h
        omega
    · rintro ⟨l2, a2, heq, hs, hk⟩
      obtain ⟨hl, ha⟩ := List.append_inj' heq rfl
      have ha2 : a = a2 := by simpa using ha
      subst hl; subst ha2
      rw [if_pos hs]
      omega

theorem streak_three (cfg : Config) (pre : List CycleIn) :
    3 ≤ streak cfg pre ↔
      ∃ pre0 c1 c2 c3, pre = pre0 ++ [c1, c2, c3] ∧ succeeded cfg c1 = true ∧
        succeeded cfg c2 = true ∧ succeeded cfg c3 = true := by
  constructor
  · intro h
    obtain ⟨l3, c3, e3, s3, h3⟩ := (streak_succ_le cfg 2 pre).1 h
    obtain ⟨l2, c2, e2, s2, h2⟩ := (streak_succ_le cfg 1 l3).1 h3
    obtain ⟨l1, c1, e1, s1, _⟩ := (streak_succ_le cfg 0 l2).1 h2
    exact ⟨l1, c1, c2, c3, by simp [e3, e2, e1], s1, s2, s3⟩
  · rintro ⟨pre0, c1, c2, c3, e, s1, s2, s3⟩
    have e1 : pre = ((pre0 ++ [c1]) ++ [c2]) ++ [c3] := by simp [e]
    rw [e1, streak_append, if_pos s3, streak_append, if_pos s2, streak_append, if_pos s1]
    omega

/-- Claim C5: from a count of 0 and after any run `pre` of successful and
failed cycles, the next cycle `c` reaches the estimation stage if and only if
its acquisition succeeded and `pre` ends with three cycles whose acquisition
succeeded; the run may be arbitrarily long, the saturation of the count at
255 does not break the equivalence. -/
theorem warmup_gating (cfg : Config) (P : Prims) (s0 : BaroState P) (h0 : s0.PipeCount = 0)
    (pre : List CycleIn) (c : CycleIn) :
    (lastEst cfg P (pre ++ [c]) s0).isSome = true ↔
      (succeeded cfg c = true ∧
        ∃ pre0 c1 c2 c3, pre = pre0 ++ [c1, c2, c3] ∧ succeeded cfg c1 = true ∧
          succeeded cfg c2 = true ∧ succeeded cfg c3 = true) := by
  rw [lastEst_append, ProcBaro_est, PipeCount_run cfg P s0 h0, ← streak_three]
  constructor
  · rintro ⟨a, b⟩
    exact ⟨a, by omega⟩
  · rintro ⟨a, b⟩
    exact ⟨a, by omega⟩

/-- Claim C5 from the seeded state: after a failed cycle and three successful
ones, a fourth successful cycle reaches the estimation stage. -/
theorem warmup_gating_witness :
    seeded.PipeCount = 0 ∧
    (lastEst cfgCombined refPrims
      ([cycleBadAcquire, cycleGood, cycleGood, cycleGood] ++ [cycleGood]) seeded).isSome = true :=
  ⟨by decide,
   (warmup_gating cfgCombined refPrims seeded (by decide)
      [cycleBadAcquire, cycleGood, cycleGood, cycleGood] cycleGood).2
     ⟨by decide, [cycleBadAcquire], cycleGood, cycleGood, cycleGood, rfl, by decide, by decide,
      by decide⟩⟩

/-- After any run, each accumulator is its starting value fed with a list of
inputs, and the two lists have the same length. -/
theorem accumulators_run (cfg : Config) (P : Prims) (ins : List CycleIn) (s0 : BaroState P) :
    ∃ xs ys : List Int, xs.length = ys.length ∧
      (runCycles cfg P ins s0).1.PressAver = xs.foldl P.averProcess s0.PressAver ∧
      (runCycles cfg P ins s0).1.AltAver = ys.foldl P.averProcess s0.AltAver := by
  induction ins generalizing s0 with
  | nil => exact ⟨[], [], rfl, rfl, rfl⟩
  | cons inp rest ih =>
    obtain ⟨xs, ys, hl, hp, ha⟩ := ih (ProcBaro cfg P inp s0).1
    have hstep := accumulators_step cfg P inp s0
    show ∃ xs ys : List Int, xs.length = ys.length ∧
      (runCycles cfg P rest (ProcBaro cfg P inp s0).1).1.PressAver = xs.foldl P.averProcess s0.PressAver ∧
      (runCycles cfg P rest (ProcBaro cfg P inp s0).1).1.AltAver = ys.foldl P.averProcess s0.AltAver
    cases he : (ProcBaro cfg P inp s0).2.est with
    | none =>
      obtain ⟨h1, h2⟩ := hstep.1 he
      exact ⟨xs, ys, hl, by rw [hp, h1], by rw [ha, h2]⟩
    | some e =>
      by_cases hq : 500 ≤ inp.Phase % 65536 ∧ inp.GPS_TimeSinceLock ≠ 0
      · obtain ⟨h1, h2⟩ := (hstep.2 e he).1 hq
        exact ⟨e.Pressure :: xs, inp.GPS_Altitude :: ys, by simp [hl],
          by rw [hp, h1]; rfl, by rw [ha, h2]; rfl⟩
      · obtain ⟨h1, h2⟩ := (hstep.2 e he).2 hq
        exact ⟨xs, ys, hl, by rw [hp, h1], by rw [ha, h2]⟩

/-- Claim C10: in a cycle that reaches the estimation stage, `PressAver` is fed
once (with the pressure) and `AltAver` once (with `GPS_Altitude`) when
`Phase>=500` and `GPS_TimeSinceLock` is not zero, and both are left as they
were otherwise; and after any run from the seeding of `vTaskSENS` each
accumulator is its seed fed with a list of inputs, the two lists having the
same length. -/
theorem crossCal_gating (cfg : Config) (P : Prims) :
    (∀ (inp : CycleIn) (s : BaroState P) (e : Estimates),
      (ProcBaro cfg P inp s).2.est = some e →
        ((500 ≤ inp.Phase % 65536 ∧ inp.GPS_TimeSinceLock ≠ 0) →
          (ProcBaro cfg P inp s).1.PressAver = P.averProcess s.PressAver e.Pressure ∧
          (ProcBaro cfg P inp s).1.AltAver = P.averProcess s.AltAver inp.GPS_Altitude) ∧
        (¬ (500 ≤ inp.Phase % 65536 ∧ inp.GPS_TimeSinceLock ≠ 0) →
          (ProcBaro cfg P inp s).1.PressAver = s.PressAver ∧
          (ProcBaro cfg P inp s).1.AltAver = s.AltAver)) ∧
    (∀ (ins : List CycleIn) (v : VarioState) (pos : List GPS_Position),
      ∃ xs ys : List Int, xs.length = ys.length ∧
        (runCycles cfg P ins (initState P v pos)).1.PressAver =
          xs.foldl P.averProcess (P.averSet (4 * 101300)) ∧
        (runCycles cfg P ins (initState P v pos)).1.AltAver =
          ys.foldl P.averProcess (P.averSet 0)) :=
  ⟨fun inp s => (accumulators_step cfg P inp s).2,
   fun ins v pos => accumulators_run cfg P ins (initState P v pos)⟩

/-- Claim C10 at a cycle with a GPS lock that starts 600 ms into the second,
from the warmed-up state. -/
theorem crossCal_gating_witness :
    (ProcBaro cfgCombined refPrims cycleGood warmed).2.est =
      some { PLR := -832, ClimbRate := 0, Noise := 8, StdAltitude := 20,
             ClimbRate4sec := -316056, Pressure := 405200, Altitude := 39 } ∧
    (500 ≤ cycleGood.Phase % 65536 ∧ cycleGood.GPS_TimeSinceLock ≠ 0) ∧
    (ProcBaro cfgCombined refPrims cycleGood warmed).1.PressAver =
      refPrims.averProcess warmed.PressAver 405200 ∧
    (ProcBaro cfgCombined refPrims cycleGood warmed).1.AltAver =
      refPrims.averProcess warmed.AltAver cycleGood.GPS_Altitude :=
  have h := ((crossCal_gating cfgCombined refPrims).1 cycleGood warmed
    { PLR := -832, ClimbRate := 0, Noise := 8, StdAltitude := 20,
      ClimbRate4sec := -316056, Pressure := 405200, Altitude := 39 } (by decide)).1
    (by decide)
  ⟨by decide, by decide, h.1, h.2⟩

/-- After three successful cycles the three newest samples of the window are
the samples of these cycles, and the count is at least 3. -/
theorem three_successes (cfg : Config) (P : Prims) (u : BaroState P) (c1 c2 c3 : CycleIn)
    (h1 : succeeded cfg c1 = true) (h2 : succeeded cfg c2 = true) (h3 : succeeded cfg c3 = true) :
    (runCycles cfg P [c1, c2, c3] u).1.BaroPipe.d1 = sample cfg c1 ∧
    (runCycles cfg P [c1, c2, c3] u).1.BaroPipe.d2 = sample cfg c2 ∧
    (runCycles cfg P [c1, c2, c3] u).1.BaroPipe.d3 = sample cfg c3 ∧
    3 ≤ (runCycles cfg P [c1, c2, c3] u).1.PipeCount := by
  show (ProcBaro cfg P c3 (ProcBaro cfg P c2 (ProcBaro cfg P c1 u).1).1).1.BaroPipe.d1 = _ ∧
    (ProcBaro cfg P c3 (ProcBaro cfg P c2 (ProcBaro cfg P c1 u).1).1).1.BaroPipe.d2 = _ ∧
    (ProcBaro cfg P c3 (ProcBaro cfg P c2 (ProcBaro cfg P c1 u).1).1).1.BaroPipe.d3 = _ ∧
    3 ≤ (ProcBaro cfg P c3 (ProcBaro cfg P c2 (ProcBaro cfg P c1 u).1).1).1.PipeCount
  have w1 := ProcBaro_window cfg P c1 u h1
  have w2 := ProcBaro_window cfg P c2 (ProcBaro cfg P c1 u).1 h2
  have w3 := ProcBaro_window cfg P c3 (ProcBaro cfg P c2 (ProcBaro cfg P c1 u).1).1 h3
  have p1 := ProcBaro_PipeCount cfg P c1 u
  have p2 := ProcBaro_PipeCount cfg P c2 (ProcBaro cfg P c1 u).1
  have p3 := ProcBaro_PipeCount cfg P c3 (ProcBaro cfg P c2 (ProcBaro cfg P c1 u).1).1
  rw [if_pos h1] at p1
  rw [if_pos h2] at p2
  rw [if_pos h3] at p3
  refine ⟨?_, ?_, w3.2.2.2, ?_⟩
  · rw [w3.2.1, w2.2.2.1, w1.2.2.2]
  · rw [w3.2.2.1, w2.2.2.2]
  · split_ifs at p1 p2 p3 <;> omega

/-- Claim C7 as amended: from the same state, the failed cycle produces no
estimates, and the run with the failed cycle followed by four successful
cycles and the run with the same four successful cycles alone both produce
estimates in the fourth of these cycles, with the same pressure, the same
standard altitude and the same climb rate. -/
theorem fault_recovery_window (cfg : Config) (P : Prims) (s : BaroState P)
    (f c1 c2 c3 c4 : CycleIn) (hf : succeeded cfg f = false)
    (h1 : succeeded cfg c1 = true) (h2 : succeeded cfg c2 = true)
    (h3 : succeeded cfg c3 = true) (h4 : succeeded cfg c4 = true) :
    lastEst cfg P [f] s = none ∧
    ∃ e e2 : Estimates,
      lastEst cfg P [f, c1, c2, c3, c4] s = some e ∧
      lastEst cfg P [c1, c2, c3, c4] s = some e2 ∧
      e.Pressure = e2.Pressure ∧ e.StdAltitude = e2.StdAltitude ∧ e.ClimbRate = e2.ClimbRate := by
  refine ⟨(lastEst_append cfg P [] f s).trans (ProcBaro_failed cfg P f s hf).1, ?_⟩
  have hA : lastEst cfg P [f, c1, c2, c3, c4] s =
      (ProcBaro cfg P c4 (runCycles cfg P [c1, c2, c3] (ProcBaro cfg P f s).1).1).2.est :=
    lastEst_append cfg P [f, c1, c2, c3] c4 s
  have hB : lastEst cfg P [c1, c2, c3, c4] s =
      (ProcBaro cfg P c4 (runCycles cfg P [c1, c2, c3] s).1).2.est :=
    lastEst_append cfg P [c1, c2, c3] c4 s
  have tA := three_successes cfg P (ProcBaro cfg P f s).1 c1 c2 c3 h1 h2 h3
  have tB := three_successes cfg P s c1 c2 c3 h1 h2 h3
  have sA := (ProcBaro_est cfg P c4 (runCycles cfg P [c1, c2, c3] (ProcBaro cfg P f s).1).1).2
    ⟨h4, tA.2.2.2⟩
  have sB := (ProcBaro_est cfg P c4 (runCycles cfg P [c1, c2, c3] s).1).2 ⟨h4, tB.2.2.2⟩
  obtain ⟨e, he⟩ := Option.isSome_iff_exists.1 sA
  obtain ⟨e2, he2⟩ := Option.isSome_iff_exists.1 sB
  refine ⟨e, e2, hA.trans he, hB.trans he2, ?_⟩
  exact ProcBaro_est_congr cfg P c4 _ _ (tA.1.trans tB.1.symm) (tA.2.1.trans tB.2.1.symm)
    (tA.2.2.1.trans tB.2.2.1.symm) e e2 he he2

/-- Claim C7 as amended, at a failed `Acquire()` followed by four successful
cycles from the warmed-up state. -/
theorem fault_recovery_window_witness :
    succeeded cfgCombined cycleBadAcquire = false ∧ succeeded cfgCombined cycleGood = true ∧
    lastEst cfgCombined refPrims [cycleBadAcquire] warmed = none ∧
    ∃ e e2 : Estimates,
      lastEst cfgCombined refPrims [cycleBadAcquire, cycleGood, cycleGood, cycleGood, cycleGood] warmed
        = some e ∧
      lastEst cfgCombined refPrims [cycleGood, cycleGood, cycleGood, cycleGood] warmed = some e2 ∧
      e.Pressure = e2.Pressure ∧ e.StdAltitude = e2.StdAltitude ∧ e.ClimbRate = e2.ClimbRate :=
  ⟨by decide, by decide,
   fault_recovery_window cfgCombined refPrims warmed cycleBadAcquire cycleGood cycleGood cycleGood
     cycleGood (by decide) (by decide) (by decide) (by decide) (by decide)⟩

/-- The altitude accumulator after a cycle: fed once with `GPS_Altitude` when
the acquisition succeeded, the count was at least 3, `Phase>=500` and
`GPS_TimeSinceLock` is not zero; as it was otherwise. -/
theorem ProcBaro_AltAver (cfg : Config) (P : Prims) (inp : CycleIn) (s : BaroState P) :
    (ProcBaro cfg P inp s).1.AltAver =
      if (succeeded cfg inp = true ∧ 3 ≤ s.PipeCount) ∧
          (500 ≤ inp.Phase % 65536 ∧ inp.GPS_TimeSinceLock ≠ 0) then
        P.averProcess s.AltAver inp.GPS_Altitude
      else s.AltAver := by
  have hstep := accumulators_step cfg P inp s
  by_cases hc : succeeded cfg inp = true ∧ 3 ≤ s.PipeCount
  · obtain ⟨e, he⟩ := Option.isSome_iff_exists.1 ((ProcBaro_est cfg P inp s).2 hc)
    by_cases hq : 500 ≤ inp.Phase % 65536 ∧ inp.GPS_TimeSinceLock ≠ 0
    · rw [if_pos ⟨hc, hq⟩]
      exact ((hstep.2 e he).1 hq).2
    · rw [if_neg (fun h => hq h.2)]
      exact ((hstep.2 e he).2 hq).2
  · rw [if_neg (fun h => hc h.1)]
    have hn : (ProcBaro cfg P inp s).2.est = none := by
      cases hopt : (ProcBaro cfg P inp s).2.est with
      | none => rfl
      | some e =>
        exact absurd ((ProcBaro_est cfg P inp s).1 (by rw [hopt]; rfl)) hc
    exact (hstep.1 hn).2

/-- The mechanism behind the residue, for every filter: after a failed cycle
and four successful cycles in qualifying slots the altitude accumulator has
been fed once, after the same four cycles from a warmed-up state without the
failure it has been fed four times. -/
theorem fault_recovery_updates (cfg : Config) (P : Prims) (s : BaroState P)
    (f c1 c2 c3 c4 : CycleIn) (hw : 3 ≤ s.PipeCount) (hf : succeeded cfg f = false)
    (h1 : succeeded cfg c1 = true) (h2 : succeeded cfg c2 = true)
    (h3 : succeeded cfg c3 = true) (h4 : succeeded cfg c4 = true)
    (q1 : 500 ≤ c1.Phase % 65536 ∧ c1.GPS_TimeSinceLock ≠ 0)
    (q2 : 500 ≤ c2.Phase % 65536 ∧ c2.GPS_TimeSinceLock ≠ 0)
    (q3 : 500 ≤ c3.Phase % 65536 ∧ c3.GPS_TimeSinceLock ≠ 0)
    (q4 : 500 ≤ c4.Phase % 65536 ∧ c4.GPS_TimeSinceLock ≠ 0) :
    (runCycles cfg P [f, c1, c2, c3, c4] s).1.AltAver = P.averProcess s.AltAver c4.GPS_Altitude ∧
    (runCycles cfg P [c1, c2, c3, c4] s).1.AltAver =
      P.averProcess (P.averProcess (P.averProcess (P.averProcess s.AltAver c1.GPS_Altitude)
        c2.GPS_Altitude) c3.GPS_Altitude) c4.GPS_Altitude := by
  constructor
  · show (ProcBaro cfg P c4 (ProcBaro cfg P c3 (ProcBaro cfg P c2 (ProcBaro cfg P c1
      (ProcBaro cfg P f s).1).1).1).1).1.AltAver = _
    have p0 := (ProcBaro_failed cfg P f s hf).2.2.2.2
    have a0 := (ProcBaro_failed cfg P f s hf).2.2.2.1
    have p1 := ProcBaro_PipeCount cfg P c1 (ProcBaro cfg P f s).1
    have p2 := ProcBaro_PipeCount cfg P c2 (ProcBaro cfg P c1 (ProcBaro cfg P f s).1).1
    have p3 := ProcBaro_PipeCount cfg P c3
      (ProcBaro cfg P c2 (ProcBaro cfg P c1 (ProcBaro cfg P f s).1).1).1
    rw [if_pos h1, p0] at p1
    rw [if_pos h2, p1] at p2
    rw [if_pos h3, p2] at p3
    simp only [Nat.reduceLT, Nat.reduceAdd, if_true] at p1 p2 p3
    rw [ProcBaro_AltAver, ProcBaro_AltAver cfg P c3, ProcBaro_AltAver cfg P c2,
      ProcBaro_AltAver cfg P c1, p0, p1, p2, p3, a0]
    simp [h4, q4]
  · show (ProcBaro cfg P c4 (ProcBaro cfg P c3 (ProcBaro cfg P c2
      (ProcBaro cfg P c1 s).1).1).1).1.AltAver = _
    have p1 := ProcBaro_PipeCount cfg P c1 s
    have p2 := ProcBaro_PipeCount cfg P c2 (ProcBaro cfg P c1 s).1
    have p3 := ProcBaro_PipeCount cfg P c3 (ProcBaro cfg P c2 (ProcBaro cfg P c1 s).1).1
    rw [if_pos h1] at p1
    rw [if_pos h2] at p2
    rw [if_pos h3] at p3
    have g1 : 3 ≤ (ProcBaro cfg P c1 s).1.PipeCount := by split_ifs at p1 <;> omega
    have g2 : 3 ≤ (ProcBaro cfg P c2 (ProcBaro cfg P c1 s).1).1.PipeCount := by
      split_ifs at p2 <;> omega
    have g3 : 3 ≤ (ProcBaro cfg P c3 (ProcBaro cfg P c2 (ProcBaro cfg P c1 s).1).1).1.PipeCount := by
      split_ifs at p3 <;> omega
    rw [ProcBaro_AltAver, if_pos ⟨⟨h4, g3⟩, q4⟩, ProcBaro_AltAver, if_pos ⟨⟨h3, g2⟩, q3⟩,
      ProcBaro_AltAver, if_pos ⟨⟨h2, g1⟩, q2⟩, ProcBaro_AltAver, if_pos ⟨⟨h1, hw⟩, q1⟩]

set_option maxRecDepth 100000 in
/-- Claim C7 fails as stated: from the warmed-up state, with a GPS lock at
1000.0 m and a constant pressure, the fourth successful cycle after a failed
`Acquire()` reports the noise 8 and the altitude 39, while the fourth cycle of
the uninterrupted run reports the noise 7 and the altitude 97 (and the noise 7
and the altitude 117 when the cycle that failed is replaced by a successful
one).  The three cycles that follow the failure return before the estimation
stage, so the noise filter and the two accumulators miss three updates that
the uninterrupted run makes. -/
theorem fault_recovery_residue :
    succeeded cfgCombined cycleBadAcquire = false ∧ succeeded cfgCombined cycleGood = true ∧
    warmed.PipeCount = 4 ∧
    (lastEst cfgCombined refPrims [cycleBadAcquire, cycleGood, cycleGood, cycleGood, cycleGood] warmed).map
      (fun e => (e.Noise, e.Altitude)) = some (8, 39) ∧
    (lastEst cfgCombined refPrims [cycleGood, cycleGood, cycleGood, cycleGood] warmed).map
      (fun e => (e.Noise, e.Altitude)) = some (7, 97) ∧
    (lastEst cfgCombined refPrims [cycleGood, cycleGood, cycleGood, cycleGood, cycleGood] warmed).map
      (fun e => (e.Noise, e.Altitude)) = some (7, 117) := by
  decide

/-! ## The beep period -/

theorem period_aux : ∀ note < 16,
    toU16 (((VarioBasePeriod + (note >>> 1)) / (1 + note) : Nat) : Int) =
      (VarioBasePeriod + note / 2) / (1 + note) ∧
    VarioBasePeriod / (1 + note) ≤ (VarioBasePeriod + note / 2) / (1 + note) ∧
    (VarioBasePeriod + note / 2) / (1 + note) ≤ VarioBasePeriod / (1 + note) + 1 := by
  decide

/-- Claim C13 fails as stated: at the climb rate 150 (1.5 m/s) the note index
is 2 and the period is 267 ms, while `800/(1+2)` is 266 in integer
arithmetic. -/
theorem VarioSound_period_not_quotient :
    (VarioSound 15 150 ⟨0, 0, 0⟩).Vario_Period = 267 ∧
    noteField (VarioSound 15 150 ⟨0, 0, 0⟩).Vario_Note - 0x10 = 2 ∧
    VarioBasePeriod / (1 + 2) = 266 := by
  decide

/-- Claim C13 as amended: for every climb rate of at least 50 the note index
played (the note field minus `0x10`) is at most 15, the period is
`(800 + note/2) / (1 + note)` in integer arithmetic, which is `800/(1+note)`
or one more, the fill is half the period, and below 12850 the note index is
`min(15, (r-50) div 50)`. -/
theorem VarioSound_period (KNOB_Tick : Nat) (st : VarioState) (r : Int) (h : 50 ≤ r) :
    noteField (VarioSound KNOB_Tick r st).Vario_Note - 0x10 ≤ 15 ∧
    (VarioSound KNOB_Tick r st).Vario_Period =
      (VarioBasePeriod + (noteField (VarioSound KNOB_Tick r st).Vario_Note - 0x10) / 2) /
        (1 + (noteField (VarioSound KNOB_Tick r st).Vario_Note - 0x10)) ∧
    VarioBasePeriod / (1 + (noteField (VarioSound KNOB_Tick r st).Vario_Note - 0x10)) ≤
      (VarioSound KNOB_Tick r st).Vario_Period ∧
    (VarioSound KNOB_Tick r st).Vario_Period ≤
      VarioBasePeriod / (1 + (noteField (VarioSound KNOB_Tick r st).Vario_Note - 0x10)) + 1 ∧
    (VarioSound KNOB_Tick r st).Vario_Fill = (VarioSound KNOB_Tick r st).Vario_Period / 2 ∧
    (r < 12850 →
      ((noteField (VarioSound KNOB_Tick r st).Vario_Note - 0x10 : Nat) : Int) = min 15 ((r - 50) / 50)) := by
  have hlt := VarioSound_climb_note_of_lt KNOB_Tick st r h
  unfold VarioSound at hlt ⊢
  simp only [ge_iff_le, h, if_true] at hlt ⊢
  generalize toU8 (Int.tdiv (wrapI32 (r - 50)) 50) = n at hlt ⊢
  have hn : (if 15 ≤ n then 15 else n) ≤ 15 := by split <;> omega
  generalize (if 15 ≤ n then 15 else n) = note at hn hlt ⊢
  rw [noteField_pack _ _ (volume_le KNOB_Tick) (by omega)] at hlt ⊢
  have ha := period_aux note (by omega)
  simp only [Nat.add_sub_cancel_left]
  refine ⟨hn, ha.1, ?_, ?_, ?_, ?_⟩
  · rw [ha.1]; exact ha.2.1
  · rw [ha.1]; exact ha.2.2
  · rw [Nat.shiftRight_eq_div_pow]
  · intro h2
    have := hlt h2
    omega

/-- Claim C13 as amended, at the knob value 15 and the climb rate 150. -/
theorem VarioSound_period_witness :
    (50 : Int) ≤ 150 ∧
    (VarioSound 15 150 ⟨0, 0, 0⟩).Vario_Period =
      (VarioBasePeriod + (noteField (VarioSound 15 150 ⟨0, 0, 0⟩).Vario_Note - 0x10) / 2) /
        (1 + (noteField (VarioSound 15 150 ⟨0, 0, 0⟩).Vario_Note - 0x10)) :=
  ⟨by decide, (VarioSound_period 15 ⟨0, 0, 0⟩ 150 (by decide)).2.1⟩

/-! ## The key of the position lookup -/

theorem wrapI16_of_small (x : Int) (h0 : -32768 ≤ x) (h1 : x ≤ 32767) : wrapI16 x = x := by
  unfold wrapI16; omega

/-- The measurement time `Sec` of lines 122-126 is the slot boundary
`slotSec` of the clock reading at entry. -/
theorem phaseWait_slot (inp : CycleIn) :
    (phaseWait inp).1 = ((slotSec (inp.Time0 % 4294967296) (inp.Phase % 65536) : Nat) : Int) := by
  unfold phaseWait slotSec
  simp only
  have hm : inp.Time0 % 4294967296 % 60 < 60 := Nat.mod_lt _ (by decide)
  generalize inp.Time0 % 4294967296 % 60 = m at hm ⊢
  generalize inp.Phase % 65536 = ph
  rw [wrapI16_of_small (10 * (m : Int)) (by omega) (by omega),
    wrapI16_of_small (10 * (m : Int) + 10) (by omega) (by omega),
    wrapI16_of_small (10 * (m : Int) + 5) (by omega) (by omega)]
  by_cases hp : 500 ≤ ph
  · simp only [ge_iff_le, hp, if_true]
    by_cases h6 : (600 : Int) ≤ 10 * (m : Int) + 10
    · rw [if_pos h6, wrapI16_of_small _ (by omega) (by omega)]
      omega
    · rw [if_neg h6]
      omega
  · simp only [ge_iff_le, hp, if_false]
    have h6 : ¬ ((600 : Int) ≤ 10 * (m : Int) + 5) := by omega
    rw [if_neg h6]
    omega

theorem lookupKey_slot (S : Nat) (h : S < 600) :
    lookupKey (S : Int) = (((S / 10 : Nat) : Int), ((100 * (S % 10) : Nat) : Int)) := by
  have h1 : Int.tmod (S : Int) 10 = ((S % 10 : Nat) : Int) := by
    rw [Int.tmod_eq_emod (by omega) (by decide)]; rfl
  have h2 : Int.tdiv (S : Int) 10 = ((S / 10 : Nat) : Int) := by
    rw [Int.tdiv_eq_ediv (by omega) (by decide)]; rfl
  have h3 : toU8 ((S % 10 : Nat) : Int) = S % 10 := by
    unfold toU8; omega
  unfold lookupKey
  simp only
  rw [h1, h2, h3, wrapI16_of_small _ (by omega) (by omega)]
  push_cast
  rfl

theorem emitAll_emission (cfg : Config) (inp : CycleIn) (l : List Sentence) (i : Nat) :
    ∀ x ∈ emitAll cfg inp i l, x.isEmission = true := by
  induction l generalizing i with
  | nil => simp [emitAll]
  | cons a l ih =>
    intro x hx
    simp only [emitAll, emit, List.mem_append] at hx
    rcases hx with (hx | hx) | hx
    · split_ifs at hx <;> simp_all [Effect.isEmission]
    · split_ifs at hx <;> simp_all [Effect.isEmission]
    · exact ih (i + 1) x hx

/-- The estimation stage calls `GPS_getPosition` with the key of `Sec`, and
with no other key. -/
theorem estimation_lookup (cfg : Config) (P : Prims) (inp : CycleIn) (Sec : Int) (ticks MeasTick : Nat)
    (s : BaroState P) (a b : Int) :
    Effect.GPS_getPosition a b ∈ (estimation cfg P inp Sec ticks MeasTick s).2.effects ↔
      (a, b) = lookupKey Sec := by
  have hem := emitAll_emission cfg inp (buildSentences cfg inp MeasTick (estimate P inp s).1) 0
  constructor
  · intro h
    simp only [estimation, List.mem_append, List.mem_singleton, List.mem_cons] at h
    rcases h with (((h | h) | h) | h) | h
    · simp at h
    · split_ifs at h <;> simp at h
    · simp only [Effect.GPS_getPosition.injEq, List.not_mem_nil, or_false] at h
      exact Prod.ext h.1 h.2
    · split at h <;> simp at h
    · have := hem _ h
      simp [Effect.isEmission] at this
  · intro h
    have h1 : a = (lookupKey Sec).1 := congrArg Prod.fst h
    have h2 : b = (lookupKey Sec).2 := congrArg Prod.snd h
    simp [estimation, h1, h2]

/-- Claim C12 as amended: in a cycle that reaches the estimation stage the
key handed to `GPS_getPosition` is the slot boundary computed from the clock
reading at entry, before the phase wait: with
`S = (10*(TimeSync_Time()%60) + (10 if Phase>=500 else 5)) mod 600` the call
is `GPS_getPosition(.., S/10, 100*(S%10), 0)`, whatever `Start`, `End`,
`MeasTick` and the time of `MeasTick` are. -/
theorem lookup_key_slot (cfg : Config) (P : Prims) (inp : CycleIn) (s : BaroState P)
    (h : (ProcBaro cfg P inp s).2.est.isSome = true) (a b : Int) :
    slotSec (inp.Time0 % 4294967296) (inp.Phase % 65536) < 600 ∧
    (Effect.GPS_getPosition a b ∈ (ProcBaro cfg P inp s).2.effects ↔
      (a = ((slotSec (inp.Time0 % 4294967296) (inp.Phase % 65536) / 10 : Nat) : Int) ∧
       b = ((100 * (slotSec (inp.Time0 % 4294967296) (inp.Phase % 65536) % 10) : Nat) : Int))) := by
  have hlt : slotSec (inp.Time0 % 4294967296) (inp.Phase % 65536) < 600 := by
    unfold slotSec; exact Nat.mod_lt _ (by decide)
  refine ⟨hlt, ?_⟩
  cases hacq : acquire cfg inp with
  | fail r x y =>
    rw [(ProcBaro_failed cfg P inp s (succeeded_of_fail cfg inp r x y hacq)).1] at h
    simp at h
  | ok x y c =>
    rw [ProcBaro_of_ok cfg P inp s x y c hacq] at h ⊢
    split_ifs at h ⊢ with h4
    · simp [silent] at h
    · rw [estimation_lookup, phaseWait_slot, lookupKey_slot _ hlt]
      exact Prod.mk.injEq _ _ _ _ ▸ Iff.rfl

set_option maxRecDepth 100000 in
/-- Claim C12 as amended, at a cycle entered at 1000.600 s: the key is second
41 and 0 ms. -/
theorem lookup_key_slot_witness :
    (ProcBaro cfgCombined refPrims cycleTimed warmed).2.est.isSome = true ∧
    slotSec (cycleTimed.Time0 % 4294967296) (cycleTimed.Phase % 65536) = 410 ∧
    Effect.GPS_getPosition 41 0 ∈ (ProcBaro cfgCombined refPrims cycleTimed warmed).2.effects :=
  ⟨by decide, by decide,
   ((lookup_key_slot cfgCombined refPrims cycleTimed warmed (by decide) 41 0).2).2
     ⟨by decide, by decide⟩⟩

set_option maxRecDepth 100000 in
/-- Claim C12 fails as stated: the cycle entered at 1000.600 s acquires from
1001.000 s to 1001.040 s, so `MeasTick` is 1001020 and the effective time of
the measurement is second 41 and 20 ms (the `$POGNB` sentence shows 41.02),
but the only collaborator calls besides the outputs are the phase wait and
`GPS_getPosition` with second 41 and 0 ms; the key stays the same when the
acquisition ends at 1001.400 s and the midpoint moves to 1001.200 s. -/
theorem lookup_key_not_midpoint :
    measTick cycleTimed.Start cycleTimed.End = 1001020 ∧
    (cycleTimed.TimeAt 1001020 % 60, cycleTimed.msTimeAt 1001020) = (41, 20) ∧
    (ProcBaro cfgCombined refPrims cycleTimed warmed).2.effects.filter
      (fun x => !(x.isOutput)) = [Effect.vTaskDelay 400, Effect.GPS_getPosition 41 0] ∧
    measTick cycleTimed.Start 1001400 = 1001200 ∧
    (ProcBaro cfgCombined refPrims { cycleTimed with End := 1001400 } warmed).2.effects.filter
      (fun x => !(x.isOutput)) = [Effect.vTaskDelay 400, Effect.GPS_getPosition 41 0] ∧
    (ProcBaro cfgCombined refPrims cycleTimed warmed).2.sentences.head? =
      some (Sentence.POGNB 41 2 150 1013000 8 20 39 0 none) := by
  decide

/-! ## The annotation of the position record -/

/-- The record number `i` after `annotateAt f i`. -/
theorem annotateAt_same (f : GPS_Position → GPS_Position) (i : Nat) (l : List GPS_Position) :
    (annotateAt f i l)[i]? = (l[i]?).map f := by
  induction l generalizing i with
  | nil => simp [annotateAt]
  | cons r rs ih =>
    cases i with
    | zero => simp [annotateAt]
    | succ k => simp [annotateAt, ih]

/-- The other records after `annotateAt f i`. -/
theorem annotateAt_other (f : GPS_Position → GPS_Position) (i j : Nat) (l : List GPS_Position)
    (h : j ≠ i) : (annotateAt f i l)[j]? = l[j]? := by
  induction l generalizing i j with
  | nil => simp [annotateAt]
  | cons r rs ih =>
    cases i with
    | zero =>
      cases j with
      | zero => exact absurd rfl h
      | succ m => simp [annotateAt]
    | succ k =>
      cases j with
      | zero => simp [annotateAt]
      | succ m => simp [annotateAt, ih k m (by omega)]

/-- The fields that lines 224-233 write. -/
theorem annotate_fields (cfg : Config) (inp : CycleIn) (e : Estimates) (r : GPS_Position) :
    (annotate cfg inp e r).Pressure = e.Pressure ∧
    (annotate cfg inp e r).StdAltitude = e.StdAltitude ∧
    (annotate cfg inp e r).ClimbRate = Int.tdiv e.ClimbRate 10 ∧
    (annotate cfg inp e r).Temperature = inp.Temperature ∧
    (annotate cfg inp e r).hasBaro = true := by
  unfold annotate
  dsimp only
  split_ifs <;> exact ⟨rfl, rfl, rfl, rfl, rfl⟩

/-- The writes of sentences made by the estimation stage are those of
`emitAll` for the sentences built. -/
theorem estimation_emission (cfg : Config) (P : Prims) (inp : CycleIn) (Sec : Int)
    (ticks MeasTick : Nat) (s : BaroState P) :
    (estimation cfg P inp Sec ticks MeasTick s).2.effects.filter Effect.isEmission =
      emitAll cfg inp 0 (buildSentences cfg inp MeasTick (estimate P inp s).1) := by
  have hem := emitAll_emission cfg inp (buildSentences cfg inp MeasTick (estimate P inp s).1) 0
  have hself := List.filter_eq_self.2 hem
  simp only [estimation, List.filter_append]
  rw [hself]
  have h1 : List.filter Effect.isEmission [Effect.vTaskDelay ticks] = [] := rfl
  have h2 : List.filter Effect.isEmission
      (if cfg.WITH_VARIO = true then [Effect.VarioSound (estimate P inp s).1.ClimbRate] else []) = [] := by
    split_ifs <;> rfl
  have h3 : List.filter Effect.isEmission
      [Effect.GPS_getPosition (lookupKey Sec).1 (lookupKey Sec).2] = [] := rfl
  have h4 : List.filter Effect.isEmission
      (match lookupHit inp (lookupKey Sec) with
        | some i => [Effect.annotate i]
        | none => []) = [] := by
    split <;> rfl
  rw [h1, h2, h3, h4]
  rfl

/-- The estimation stage annotates exactly the record of `lookupHit`. -/
theorem estimation_annotate (cfg : Config) (P : Prims) (inp : CycleIn) (Sec : Int)
    (ticks MeasTick : Nat) (s : BaroState P) (i : Nat) :
    Effect.annotate i ∈ (estimation cfg P inp Sec ticks MeasTick s).2.effects ↔
      lookupHit inp (lookupKey Sec) = some i := by
  have hem := emitAll_emission cfg inp (buildSentences cfg inp MeasTick (estimate P inp s).1) 0
  simp only [estimation, List.mem_append, List.mem_singleton, List.mem_cons]
  constructor
  · intro h
    rcases h with (((h | h) | h) | h) | h
    · simp at h
    · split_ifs at h <;> simp at h
    · simp at h
    · split at h
      · rename_i k hk
        simp at h
        rw [hk, h]
      · simp at h
    · have := hem _ h
      simp [Effect.isEmission] at this
  · intro h
    rw [h]
    simp

theorem lookupHit_iff (inp : CycleIn) (key : Int × Int) (i : Nat) :
    lookupHit inp key = some i ↔
      ((inp.getPosition key.1 key.2).1 = some i ∧ |wrapI16 (inp.getPosition key.1 key.2).2| ≤ 250) := by
  unfold lookupHit
  split
  · rename_i k hk
    rw [hk]
    split_ifs with h <;> simp [h]
  · rename_i hk
    simp [hk]


theorem lookupHit_none_iff (inp : CycleIn) (key : Int × Int) :
    lookupHit inp key = none ↔
      ((inp.getPosition key.1 key.2).1 = none ∨ 250 < |wrapI16 (inp.getPosition key.1 key.2).2|) := by
  unfold lookupHit
  split
  · rename_i k hk
    rw [hk]
    split_ifs with h
    · simp; omega
    · simp; omega
  · rename_i hk
    simp [hk]

/-- The writes of one sentence, with the conditions spelled out. -/
theorem emit_eq (cfg : Config) (inp : CycleIn) (i : Nat) (x : Sentence) :
    emit cfg inp i x =
      (if inp.Verbose = true then [Effect.console x] else []) ++
      (if cfg.WITH_SDLOG = true ∧ 128 ≤ inp.Log_Free i then [Effect.log x] else []) := by
  unfold emit
  congr 1
  by_cases h1 : cfg.WITH_SDLOG = true <;> by_cases h2 : 128 ≤ inp.Log_Free i <;> simp [h1, h2]

/-- The three sentences that the estimation stage builds (lines 236-303), in
the estimates and the sensor reading. -/
theorem estimation_sentences (cfg : Config) (P : Prims) (inp : CycleIn) (Sec : Int)
    (ticks MeasTick : Nat) (s : BaroState P) :
    (estimation cfg P inp Sec ticks MeasTick s).2.sentences =
      [Sentence.POGNB (inp.TimeAt MeasTick % 4294967296 % 60) (inp.msTimeAt MeasTick % 65536 / 10)
         inp.Temperature
         (toU32 (wrapI32 (10 * (estimate P inp s).1.Pressure + 2)) >>> 2)
         (estimate P inp s).1.Noise (estimate P inp s).1.StdAltitude (estimate P inp s).1.Altitude
         (estimate P inp s).1.ClimbRate
         (if (cfg.WITH_BME280 && inp.hasHumidity) = true then some inp.Humidity else none),
       Sentence.PGRMZ (Int.tdiv (sar (wrapI32 ((estimate P inp s).1.StdAltitude * 3360 + 512)) 10) 10),
       Sentence.LK8EX1 (toU32 (wrapI32 ((estimate P inp s).1.Pressure + 2)) >>> 2)
         (Int.tdiv (wrapI32 ((estimate P inp s).1.StdAltitude + 5)) 10)
         (estimate P inp s).1.ClimbRate (Int.tdiv (inp.Temperature + 5) 10)
         ((inp.BatteryVoltage + 128) >>> 8)] := rfl

/-- The writes of the estimation stage: every sentence goes to the console
when `Parameters.Verbose` is set and to the log when the build has the log
and `Log_Free()>=128`, in the order of the source. -/
theorem estimation_writes (cfg : Config) (P : Prims) (inp : CycleIn) (Sec : Int)
    (ticks MeasTick : Nat) (s : BaroState P) (x0 x1 x2 : Sentence)
    (hx : (estimation cfg P inp Sec ticks MeasTick s).2.sentences = [x0, x1, x2]) :
    (estimation cfg P inp Sec ticks MeasTick s).2.effects.filter Effect.isEmission =
      (if inp.Verbose = true then [Effect.console x0] else []) ++
      (if cfg.WITH_SDLOG = true ∧ 128 ≤ inp.Log_Free 0 then [Effect.log x0] else []) ++
      ((if inp.Verbose = true then [Effect.console x1] else []) ++
       (if cfg.WITH_SDLOG = true ∧ 128 ≤ inp.Log_Free 1 then [Effect.log x1] else [])) ++
      ((if inp.Verbose = true then [Effect.console x2] else []) ++
       (if cfg.WITH_SDLOG = true ∧ 128 ≤ inp.Log_Free 2 then [Effect.log x2] else [])) := by
  rw [estimation_emission]
  have hs : buildSentences cfg inp MeasTick (estimate P inp s).1 = [x0, x1, x2] := hx
  rw [hs]
  simp only [emitAll, emit_eq, List.append_nil, List.append_assoc]

/-- Claim C11: in a cycle that reaches the estimation stage, the record `i` is
annotated if and only if `GPS_getPosition` returned it and `abs(BestRes)<=250`;
then this record, and no other, gets the pressure, the standard altitude,
`ClimbRate/10`, the temperature and the flag `hasBaro`; when no record is
returned or the error is larger the position buffer is left as it is.  In all
cases the three sentences `$POGNB`, `$PGRMZ` and `$LK8EX1` are built from the
estimates and the sensor reading, each is written to the console when
`Parameters.Verbose` is set and to the log when the build has the log and
`Log_Free()>=128`, and the estimates, the sentences and these writes are the
same whatever `GPS_getPosition` answers. -/
theorem annotation_conditional (cfg : Config) (P : Prims) (inp : CycleIn) (s : BaroState P)
    (e : Estimates) (he : (ProcBaro cfg P inp s).2.est = some e) :
    (∀ i : Nat,
      Effect.annotate i ∈ (ProcBaro cfg P inp s).2.effects ↔
        ((inp.getPosition (lookupKey (phaseWait inp).1).1 (lookupKey (phaseWait inp).1).2).1 = some i ∧
         |wrapI16 (inp.getPosition (lookupKey (phaseWait inp).1).1
            (lookupKey (phaseWait inp).1).2).2| ≤ 250)) ∧
    (∀ i : Nat,
      (inp.getPosition (lookupKey (phaseWait inp).1).1 (lookupKey (phaseWait inp).1).2).1 = some i →
      |wrapI16 (inp.getPosition (lookupKey (phaseWait inp).1).1
          (lookupKey (phaseWait inp).1).2).2| ≤ 250 →
        (ProcBaro cfg P inp s).1.Position[i]? = (s.Position[i]?).map (annotate cfg inp e) ∧
        (∀ j, j ≠ i → (ProcBaro cfg P inp s).1.Position[j]? = s.Position[j]?) ∧
        (∀ r : GPS_Position,
          (annotate cfg inp e r).Pressure = e.Pressure ∧
          (annotate cfg inp e r).StdAltitude = e.StdAltitude ∧
          (annotate cfg inp e r).ClimbRate = Int.tdiv e.ClimbRate 10 ∧
          (annotate cfg inp e r).Temperature = inp.Temperature ∧
          (annotate cfg inp e r).hasBaro = true)) ∧
    (((inp.getPosition (lookupKey (phaseWait inp).1).1 (lookupKey (phaseWait inp).1).2).1 = none ∨
      250 < |wrapI16 (inp.getPosition (lookupKey (phaseWait inp).1).1
          (lookupKey (phaseWait inp).1).2).2|) →
        (ProcBaro cfg P inp s).1.Position = s.Position) ∧
    (ProcBaro cfg P inp s).2.sentences.length = 3 ∧
    (∀ g : Int → Int → Option Nat × Int,
      (ProcBaro cfg P { inp with getPosition := g } s).2.est = some e ∧
      (ProcBaro cfg P { inp with getPosition := g } s).2.sentences =
        (ProcBaro cfg P inp s).2.sentences ∧
      (ProcBaro cfg P { inp with getPosition := g } s).2.effects.filter Effect.isEmission =
        (ProcBaro cfg P inp s).2.effects.filter Effect.isEmission) ∧
    (∃ t : Nat,
      (ProcBaro cfg P inp s).2.sentences =
        [Sentence.POGNB (inp.TimeAt t % 4294967296 % 60) (inp.msTimeAt t % 65536 / 10)
           inp.Temperature (toU32 (wrapI32 (10 * e.Pressure + 2)) >>> 2) e.Noise e.StdAltitude
           e.Altitude e.ClimbRate
           (if (cfg.WITH_BME280 && inp.hasHumidity) = true then some inp.Humidity else none),
         Sentence.PGRMZ (Int.tdiv (sar (wrapI32 (e.StdAltitude * 3360 + 512)) 10) 10),
         Sentence.LK8EX1 (toU32 (wrapI32 (e.Pressure + 2)) >>> 2)
           (Int.tdiv (wrapI32 (e.StdAltitude + 5)) 10) e.ClimbRate
           (Int.tdiv (inp.Temperature + 5) 10) ((inp.BatteryVoltage + 128) >>> 8)]) ∧
    (∀ x0 x1 x2 : Sentence, (ProcBaro cfg P inp s).2.sentences = [x0, x1, x2] →
      (ProcBaro cfg P inp s).2.effects.filter Effect.isEmission =
        (if inp.Verbose = true then [Effect.console x0] else []) ++
        (if cfg.WITH_SDLOG = true ∧ 128 ≤ inp.Log_Free 0 then [Effect.log x0] else []) ++
        ((if inp.Verbose = true then [Effect.console x1] else []) ++
         (if cfg.WITH_SDLOG = true ∧ 128 ≤ inp.Log_Free 1 then [Effect.log x1] else [])) ++
        ((if inp.Verbose = true then [Effect.console x2] else []) ++
         (if cfg.WITH_SDLOG = true ∧ 128 ≤ inp.Log_Free 2 then [Effect.log x2] else []))) ∧
    (inp.Verbose = true →
      ∀ x ∈ (ProcBaro cfg P inp s).2.sentences, Effect.console x ∈ (ProcBaro cfg P inp s).2.effects) := by
  cases hacq : acquire cfg inp with
  | fail r x y =>
    rw [(ProcBaro_failed cfg P inp s (succeeded_of_fail cfg inp r x y hacq)).1] at he
    simp at he
  | ok x y c =>
    rw [ProcBaro_of_ok cfg P inp s x y c hacq] at he ⊢
    by_cases h4 : (pushSample s x y).PipeCount < 4
    · rw [if_pos h4] at he
      simp [silent] at he
    rw [if_neg h4] at he ⊢
    simp only [estimation, Option.some.injEq] at he
    refine ⟨?_, ?_, ?_, ?_, ?_, ?_, ?_, ?_⟩
    · intro i
      rw [estimation_annotate, lookupHit_iff]
    · intro i h1 h2
      have hh := (lookupHit_iff inp (lookupKey (phaseWait inp).1) i).2 ⟨h1, h2⟩
      refine ⟨?_, ?_, annotate_fields cfg inp e⟩
      · simp only [estimation, hh, he]
        exact annotateAt_same _ _ _
      · intro j hj
        simp only [estimation, hh, he]
        exact annotateAt_other _ _ _ _ hj
    · intro h
      have hh := (lookupHit_none_iff inp (lookupKey (phaseWait inp).1)).2 h
      simp only [estimation, hh]
      rfl
    · simp [estimation, buildSentences]
    · intro g
      have hacq2 : acquire cfg { inp with getPosition := g } = Acq.ok x y c := by
        rw [← hacq]; rfl
      rw [ProcBaro_of_ok cfg P { inp with getPosition := g } s x y c hacq2, if_neg h4]
      refine ⟨?_, rfl, ?_⟩
      · simp only [estimation, Option.some.injEq]
        exact he
      · rw [estimation_emission, estimation_emission]
        rfl
    · refine ⟨c, ?_⟩
      rw [estimation_sentences, he]
    · intro x0 x1 x2 hx
      exact estimation_writes cfg P inp _ _ c _ x0 x1 x2 hx
    · intro hv z hz
      have hs := estimation_sentences cfg P inp (phaseWait inp).1 (phaseWait inp).2 c
        (pushSample s x y)
      have hw := estimation_writes cfg P inp (phaseWait inp).1 (phaseWait inp).2 c
        (pushSample s x y) _ _ _ hs
      have hmem : Effect.console z ∈
          (estimation cfg P inp (phaseWait inp).1 (phaseWait inp).2 c
            (pushSample s x y)).2.effects.filter Effect.isEmission := by
        rw [hw]
        rw [hs] at hz
        simp only [hv, if_true]
        simp only [List.mem_cons, List.mem_singleton, List.not_mem_nil, or_false] at hz
        rcases hz with hz | hz | hz <;> simp [hz]
      exact (List.mem_filter.1 hmem).1

set_option maxRecDepth 100000 in
/-- Claim C11 at a cycle whose lookup returns record 0 with an error of
-120 ms: the record is annotated; with an error of 251 ms, or without a
record, the buffer is left as it is. -/
theorem annotation_conditional_witness :
    (ProcBaro cfgCombined refPrims cycleFound warmed).2.est =
      some { PLR := -832, ClimbRate := 0, Noise := 8, StdAltitude := 20,
             ClimbRate4sec := -316056, Pressure := 405200, Altitude := 39 } ∧
    (ProcBaro cfgCombined refPrims cycleFound warmed).1.Position[0]? =
      (warmed.Position[0]?).map (annotate cfgCombined cycleFound
        { PLR := -832, ClimbRate := 0, Noise := 8, StdAltitude := 20,
          ClimbRate4sec := -316056, Pressure := 405200, Altitude := 39 }) ∧
    (ProcBaro cfgCombined refPrims cycleFound warmed).1.Position =
      [{ Pressure := 405200, StdAltitude := 20, ClimbRate := 0, Temperature := 150,
         Humidity := 0, hasHum := false, hasBaro := true }] ∧
    (ProcBaro cfgCombined refPrims cycleFar warmed).1.Position = warmed.Position ∧
    (ProcBaro cfgCombined refPrims cycleTimed warmed).1.Position = warmed.Position ∧
    (ProcBaro cfgCombined refPrims cycleFar warmed).2.sentences =
      (ProcBaro cfgCombined refPrims cycleFound warmed).2.sentences ∧
    (ProcBaro cfgCombined refPrims cycleFound warmed).2.effects.filter Effect.isEmission =
      [Effect.console (Sentence.POGNB 41 2 150 1013000 8 20 39 0 none),
       Effect.console (Sentence.PGRMZ 6),
       Effect.console (Sentence.LK8EX1 101300 2 0 15 0)] ∧
    (ProcBaro cfgCombined refPrims cycleFar warmed).2.effects.filter Effect.isEmission =
      (ProcBaro cfgCombined refPrims cycleFound warmed).2.effects.filter Effect.isEmission :=
  ⟨by decide,
   (((annotation_conditional cfgCombined refPrims cycleFound warmed
      { PLR := -832, ClimbRate := 0, Noise := 8, StdAltitude := 20,
        ClimbRate4sec := -316056, Pressure := 405200, Altitude := 39 } (by decide)).2.1 0
      (by decide) (by decide)).1),
   by decide, by decide, by decide, by decide, by decide, by decide⟩

/-! ## The cross-calibrated altitude of a cycle -/

theorem sar_eq_div (x : Int) (n : Nat) : sar x n = x / ((2 ^ n : Nat) : Int) := by
  unfold sar
  exact Int.shiftRight_eq_div_pow x n

/-- The altitude, the pressure and the lapse rate of a cycle that reaches the
estimation stage, in the state that the cycle leaves behind. -/
theorem ProcBaro_Altitude (cfg : Config) (P : Prims) (inp : CycleIn) (s : BaroState P)
    (e : Estimates) (he : (ProcBaro cfg P inp s).2.est = some e) :
    e.Altitude =
      wrapI32 (sar (wrapI64 (P.averOut (ProcBaro cfg P inp s).1.AltAver + 2048)) 12 +
        Int.tdiv (wrapI32 (wrapI32 (e.Pressure -
          sar (wrapI64 (P.averOut (ProcBaro cfg P inp s).1.PressAver + 2048)) 12) * sar e.PLR 4)) 250) ∧
    e.Pressure = sar (wrapI32 ((ProcBaro cfg P inp s).1.BaroPipe.Aver + 2)) 2 ∧
    e.PLR = wrapI32 (P.PressureLapseRate
      ((toU32 (((ProcBaro cfg P inp s).1.AverPress : Int) + 2) >>> 2 : Nat) : Int) inp.Temperature) := by
  cases hacq : acquire cfg inp with
  | fail r x y =>
    rw [(ProcBaro_failed cfg P inp s (succeeded_of_fail cfg inp r x y hacq)).1] at he
    simp at he
  | ok x y c =>
    rw [ProcBaro_of_ok cfg P inp s x y c hacq] at he ⊢
    by_cases h4 : (pushSample s x y).PipeCount < 4
    · rw [if_pos h4] at he
      simp [silent] at he
    rw [if_neg h4] at he ⊢
    simp only [estimation, Option.some.injEq] at he
    subst he
    exact ⟨rfl, rfl, rfl⟩

/-- Claim C3: in a cycle that reaches the estimation stage the altitude is
`((AltAver.Out+2048)>>12) + ((Pressure - ((PressAver.Out+2048)>>12)) *
(PLR>>4)) / 250` in the `Out` members that the cycle leaves in the two
accumulators, in `int64_t` and `int32_t` arithmetic with the truncating
division of C, where `Pressure` is `(BaroPipe.Aver+2)>>2` and `PLR` the lapse
rate at the averaged pressure; without overflow this is the same expression
over the integers, with `>>` as the division that rounds down; and when the
accumulators hold `A<<12` and `P<<12` and the current pressure is `P`, the
altitude is exactly `A`, for every lapse rate and for negative `A` too. -/
theorem crossAltitude_constant (cfg : Config) (P : Prims) (inp : CycleIn) (s : BaroState P)
    (e : Estimates) (he : (ProcBaro cfg P inp s).2.est = some e) :
    e.Altitude =
      wrapI32 (sar (wrapI64 (P.averOut (ProcBaro cfg P inp s).1.AltAver + 2048)) 12 +
        Int.tdiv (wrapI32 (wrapI32 (e.Pressure -
          sar (wrapI64 (P.averOut (ProcBaro cfg P inp s).1.PressAver + 2048)) 12) * sar e.PLR 4)) 250) ∧
    e.Pressure = sar (wrapI32 ((ProcBaro cfg P inp s).1.BaroPipe.Aver + 2)) 2 ∧
    e.PLR = wrapI32 (P.PressureLapseRate
      ((toU32 (((ProcBaro cfg P inp s).1.AverPress : Int) + 2) >>> 2 : Nat) : Int) inp.Temperature) ∧
    ((-9223372036854775808 ≤ P.averOut (ProcBaro cfg P inp s).1.AltAver + 2048 ∧
      P.averOut (ProcBaro cfg P inp s).1.AltAver + 2048 ≤ 9223372036854775807) →
     (-9223372036854775808 ≤ P.averOut (ProcBaro cfg P inp s).1.PressAver + 2048 ∧
      P.averOut (ProcBaro cfg P inp s).1.PressAver + 2048 ≤ 9223372036854775807) →
     fitsI32 (e.Pressure - (P.averOut (ProcBaro cfg P inp s).1.PressAver + 2048) / 4096) →
     fitsI32 ((e.Pressure - (P.averOut (ProcBaro cfg P inp s).1.PressAver + 2048) / 4096) *
        (e.PLR / 16)) →
     fitsI32 ((P.averOut (ProcBaro cfg P inp s).1.AltAver + 2048) / 4096 +
        Int.tdiv ((e.Pressure - (P.averOut (ProcBaro cfg P inp s).1.PressAver + 2048) / 4096) *
          (e.PLR / 16)) 250) →
      e.Altitude =
        (P.averOut (ProcBaro cfg P inp s).1.AltAver + 2048) / 4096 +
          Int.tdiv ((e.Pressure - (P.averOut (ProcBaro cfg P inp s).1.PressAver + 2048) / 4096) *
            (e.PLR / 16)) 250) ∧
    (∀ A Pr : Int, fitsI32 A → fitsI32 Pr →
      P.averOut (ProcBaro cfg P inp s).1.AltAver = A * 4096 →
      P.averOut (ProcBaro cfg P inp s).1.PressAver = Pr * 4096 →
      e.Pressure = Pr → e.Altitude = A) := by
  have hall := ProcBaro_Altitude cfg P inp s e he
  have h0 := hall.1
  refine ⟨h0, hall.2.1, hall.2.2, ?_, ?_⟩
  · intro hA hP h1 h2 h3
    have d12 : ((2 ^ 12 : Nat) : Int) = 4096 := by norm_num
    have d4 : ((2 ^ 4 : Nat) : Int) = 16 := by norm_num
    rw [h0, wrapI64_of_fits hA.1 hA.2, wrapI64_of_fits hP.1 hP.2, sar_eq_div, sar_eq_div,
      sar_eq_div, d12, d4, wrapI32_of_fits h1, wrapI32_of_fits h2, wrapI32_of_fits h3]
  · intro A Pr hA hP hAlt hPress hCur
    rw [h0, hAlt, hPress, hCur]
    exact crossAltitude_fixed A Pr _ hA hP

set_option maxRecDepth 100000 in
/-- Claim C3 on two cycles with a GPS lock in the second half of the second,
so that both accumulators are fed before the altitude is computed.  From the
state reached after a first fix at -409.6 m the altitude accumulator holds
`(-8)<<12`; a cycle at the GPS altitude -0.8 m and the seed pressure reports
exactly -0.8 m.  From the warmed-up state a cycle that reads 100 Pa less
leaves 159843 and 1659698400 in the accumulators and reports
`39 + ((405100 - 405200) * (-833>>4)) / 250 = 39 + 21 = 60`. -/
theorem crossAltitude_constant_witness :
    (ProcBaro cfgCombined refPrims cycleBelow lowState).2.est = some estBelow ∧
    fitsI32 (-8) ∧ fitsI32 405200 ∧
    refPrims.averOut (ProcBaro cfgCombined refPrims cycleBelow lowState).1.AltAver = (-8) * 4096 ∧
    refPrims.averOut (ProcBaro cfgCombined refPrims cycleBelow lowState).1.PressAver = 405200 * 4096 ∧
    estBelow.Pressure = 405200 ∧
    estBelow.Altitude = -8 ∧
    (ProcBaro cfgCombined refPrims cycleLower warmed).2.est = some estLower ∧
    refPrims.averOut (ProcBaro cfgCombined refPrims cycleLower warmed).1.AltAver = 159843 ∧
    refPrims.averOut (ProcBaro cfgCombined refPrims cycleLower warmed).1.PressAver = 1659698400 ∧
    estLower.Altitude =
      (refPrims.averOut (ProcBaro cfgCombined refPrims cycleLower warmed).1.AltAver + 2048) / 4096 +
        Int.tdiv ((estLower.Pressure -
          (refPrims.averOut (ProcBaro cfgCombined refPrims cycleLower warmed).1.PressAver + 2048) / 4096) *
            (estLower.PLR / 16)) 250 ∧
    estLower.Altitude = 60 ∧
    (159843 + 2048) / 4096 + Int.tdiv ((405100 - (1659698400 + 2048) / 4096) * (-833 / 16)) 250
      = (60 : Int) :=
  ⟨by decide, by decide, by decide, by decide, by decide, by decide,
   (crossAltitude_constant cfgCombined refPrims cycleBelow lowState estBelow (by decide)).2.2.2.2
      (-8) 405200 (by decide) (by decide) (by decide) (by decide) (by decide),
   by decide, by decide, by decide,
   (crossAltitude_constant cfgCombined refPrims cycleLower warmed estLower (by decide)).2.2.2.1
      (by decide) (by decide) (by decide) (by decide) (by decide),
   by decide, by decide⟩

end Sens
